import Mathlib

/-!
osgHimmel: the himmel and its astronomy.

A shallow embedding of `Himmel` (src/src/himmel.cpp), of the part of
`StarsGeode` it drives (src/src/starsgeode.cpp), of the `AbstractAstronomy`
interface (src/trunk/include/osgHimmel/abstractastronomy.h), and of the key
handler and the flag parsing of the textured demo
(src/apps/demo_textured/texturedmain.cpp).

Conventions of the embedding.

* A C++ `float` holding a finite value is a rational number: the code compared
  here only compares, stores and copies such values.
* Every method is a function on an explicit state. A method that returns a value
  and changes the object returns the pair (value, new state).
* Types and functions that the sources only declare (`TimeF`, `t_aTime`, the pure
  virtual hooks of the astronomy, the constants of earth.h) are parameters,
  collected in `Env`; the methods of `TimeF` the demo calls are collected in
  `TimeFMethods`.
* Method bodies of this repository that are not among the sources
  (abstractastronomy.cpp, abstracthimmel.cpp, mathmacros.h) are written from the
  specification; each such definition says so in its doc comment.
-/

namespace osgHimmel

/-! ## Values -/

/-- An `osg::Vec3`. -/
structure Vec3 where
  x : ℚ
  y : ℚ
  z : ℚ
deriving DecidableEq

/-- An `osg::Vec4`, used for the common uniform `cmn`. -/
structure Vec4 where
  c0 : ℚ
  c1 : ℚ
  c2 : ℚ
  c3 : ℚ
deriving DecidableEq

/-- An `osg::Matrix` (4 x 4). -/
abbrev Matrix4 := Fin 4 → Fin 4 → ℚ

/-- Modelled from the spec: the macro `_clamp(l, u, x)` of mathmacros.h, which is
not among the sources. The specification says latitude is "clamped" to
[-90, 90] and the comment at its use in `Himmel::setAltitude` says "Clamp altitude
into non uniform atmosphere": the nearest value of [l, u]. -/
def _clamp (l u x : ℚ) : ℚ :=
  if x < l then l else if x > u then u else x

/-- Modelled from the spec: the canonical longitude. The specification says
longitude is "wrapped to [-180, 180)" and that 190 becomes 190 - 360 = -170: the
representative of x modulo 360 in [-180, 180). -/
def wrapLongitude (x : ℚ) : ℚ :=
  x - 360 * (⌊(x + 180) / 360⌋ : ℤ)

/-! ## AbstractAstronomy -/

/-- The data members of `AbstractAstronomy` (abstractastronomy.h, lines 141-151);
`A` is the type `t_aTime`. -/
structure AbstractAstronomy (A : Type) where
  m_aTime : A
  m_t : ℚ
  m_latitude : ℚ
  m_longitude : ℚ
  m_overrideMoonPosition : Bool
  m_moonPosition : Vec3
  m_overrideSunPosition : Bool
  m_sunPosition : Vec3

/-- What the sources declare but do not define: `T` is the clock `TimeF`, `A` is
`t_aTime`. -/
structure Env (T A : Type) where
  /-- The reading `TimeF::getf()` of a clock. -/
  getf : T → ℚ
  /-- The conversion `t_aTime::fromTimeF`. -/
  fromTimeF : T → A
  /-- The julian day `jd(aTime)` of an astronomical time. -/
  jd : A → ℚ
  /-- The pure virtual `sunPosition(aTime, latitude, longitude)`. -/
  sunPosition : A → ℚ → ℚ → Vec3
  /-- The pure virtual `moonPosition(aTime, latitude, longitude)`. -/
  moonPosition : A → ℚ → ℚ → Vec3
  /-- The public `getSunPosition(aTime, latitude, longitude) const`. -/
  getSunPositionAt : AbstractAstronomy A → A → ℚ → ℚ → Vec3
  /-- The pure virtual `equToLocalHorizonMatrix() const`. -/
  equToLocalHorizonMatrix : AbstractAstronomy A → Matrix4
  /-- The value `tan(_rad(fov) / height) * TWO_TIMES_SQRT2` as a float. -/
  quadWidth : ℚ → ℚ → ℚ
  /-- The constant `earth_meanRadius()` of earth.h. -/
  earth_meanRadius : ℚ
  /-- The constant `earth_atmosphereThicknessNonUniform()` of earth.h. -/
  earth_atmosphereThicknessNonUniform : ℚ

namespace AbstractAstronomy

variable {T A : Type}

/-- Modelled from the spec: the body of `AbstractAstronomy::getLatitude` is not
among the sources; it returns the stored latitude. -/
def getLatitude (a : AbstractAstronomy A) : ℚ := a.m_latitude

/-- Modelled from the spec: the body of `AbstractAstronomy::getLongitude` is not
among the sources; it returns the stored longitude. -/
def getLongitude (a : AbstractAstronomy A) : ℚ := a.m_longitude

/-- Modelled from the spec: `AbstractAstronomy::setLatitude`, whose body is not
among the sources. "Clamps latitude to [-90,90] ... returns the clamped values
actually stored (never fails)". -/
def setLatitude (latitude : ℚ) (a : AbstractAstronomy A) : ℚ × AbstractAstronomy A :=
  let a1 := { a with m_latitude := _clamp (-90) 90 latitude }
  (a1.getLatitude, a1)

/-- Modelled from the spec: `AbstractAstronomy::setLongitude`, whose body is not
among the sources. "Wraps longitude to its canonical range ... returns the
clamped values actually stored". -/
def setLongitude (longitude : ℚ) (a : AbstractAstronomy A) : ℚ × AbstractAstronomy A :=
  let a1 := { a with m_longitude := wrapLongitude longitude }
  (a1.getLongitude, a1)

/-- Modelled from the spec: `AbstractAstronomy::update(aTime)`, whose body is not
among the sources. "If the new time differs from the cached one, recomputes the
internal sidereal/frame-transform state"; location and override state are not
touched ("persists across update calls until explicitly cleared"). -/
def update [DecidableEq A] (E : Env T A) (aTime : A) (a : AbstractAstronomy A) :
    AbstractAstronomy A :=
  if aTime = a.m_aTime then a else { a with m_aTime := aTime, m_t := E.jd aTime }

/-- Modelled from the spec: `AbstractAstronomy::getOverrideSunPosition`, whose body
is not among the sources: the stored flag. -/
def getOverrideSunPosition (a : AbstractAstronomy A) : Bool := a.m_overrideSunPosition

/-- Modelled from the spec: `AbstractAstronomy::setOverrideSunPosition(enabled)`,
whose body is not among the sources: stores the per-body flag of the override
state and returns it. -/
def setOverrideSunPosition (enabled : Bool) (a : AbstractAstronomy A) :
    Bool × AbstractAstronomy A :=
  let a1 := { a with m_overrideSunPosition := enabled }
  (a1.getOverrideSunPosition, a1)

/-- Modelled from the spec: `AbstractAstronomy::getSunPosition()`, whose body is
not among the sources. "Return the override vector if the respective override
flag is set; otherwise delegate to the Ephemeris Algorithm using current time and
location". -/
def getSunPosition (E : Env T A) (a : AbstractAstronomy A) : Vec3 :=
  if a.m_overrideSunPosition then a.m_sunPosition
  else E.sunPosition a.m_aTime a.m_latitude a.m_longitude

/-- Modelled from the spec: `AbstractAstronomy::setSunPosition(position)`, whose
body is not among the sources: stores the caller-supplied direction vector of the
override state and, as the other setters do, returns the value stored. -/
def setSunPosition (position : Vec3) (a : AbstractAstronomy A) :
    Vec3 × AbstractAstronomy A :=
  let a1 := { a with m_sunPosition := position }
  (a1.m_sunPosition, a1)

/-- Modelled from the spec: `AbstractAstronomy::getOverrideMoonPosition`, whose
body is not among the sources: the stored flag. -/
def getOverrideMoonPosition (a : AbstractAstronomy A) : Bool := a.m_overrideMoonPosition

/-- Modelled from the spec: `AbstractAstronomy::setOverrideMoonPosition(enabled)`,
whose body is not among the sources: stores the flag and returns it. -/
def setOverrideMoonPosition (enabled : Bool) (a : AbstractAstronomy A) :
    Bool × AbstractAstronomy A :=
  let a1 := { a with m_overrideMoonPosition := enabled }
  (a1.getOverrideMoonPosition, a1)

/-- Modelled from the spec: `AbstractAstronomy::getMoonPosition()`, whose body is
not among the sources; the moon's counterpart of `getSunPosition`. -/
def getMoonPosition (E : Env T A) (a : AbstractAstronomy A) : Vec3 :=
  if a.m_overrideMoonPosition then a.m_moonPosition
  else E.moonPosition a.m_aTime a.m_latitude a.m_longitude

/-- Modelled from the spec: `AbstractAstronomy::setMoonPosition(position)`, whose
body is not among the sources; the moon's counterpart of `setSunPosition`. -/
def setMoonPosition (position : Vec3) (a : AbstractAstronomy A) :
    Vec3 × AbstractAstronomy A :=
  let a1 := { a with m_moonPosition := position }
  (a1.m_moonPosition, a1)

end AbstractAstronomy

/-! ## StarsGeode -/

/-- The uniforms of a `StarsGeode` that `StarsGeode::update` writes
(starsgeode.cpp, lines 91-103). -/
structure StarsGeode where
  u_quadWidth : ℚ
  u_R : Matrix4
  u_sun : Vec3

/-- The method `StarsGeode::update(const Himmel &himmel)`; of the himmel it reads
the two camera hints and the astronomy. -/
def StarsGeode.update {T A : Type} (E : Env T A) (fov height : ℚ)
    (astro : AbstractAstronomy A) (s : StarsGeode) : StarsGeode :=
  let s := { s with u_quadWidth := E.quadWidth fov height }
  let s := { s with u_R := E.equToLocalHorizonMatrix astro }
  { s with u_sun := astro.getSunPosition E }

/-! ## AbstractHimmel -/

/-- The nodes a himmel adds to itself as children. -/
inductive Node where
  | antiCull
  | milkyway
  | stars
  | moon
  | atmosphere
  | highLayer
deriving DecidableEq

/-- The calls `Himmel::update` makes on its collaborators, in the order made. The
update methods of the milky way, moon, atmosphere and high cloud layer geodes are
not among the sources; a call to one of them is recorded and nothing more. -/
inductive Call (A : Type) where
  | astroUpdate (aTime : A)
  | milkywayUpdate
  | moonUpdate
  | starsUpdate
  | atmosphereUpdate
  | highLayerUpdate
deriving DecidableEq

/-- Modelled from the spec: the state of the base class `AbstractHimmel`, whose
header and body are not among the sources. It holds the reading of the assigned
clock (`getTime()`), the reading seen by the last update, the dirty flag
(`isDirty()`), the camera hints, and, as an `osg::Group`, the children and the
render bin given to each child's state set. -/
structure AbstractHimmel (T : Type) where
  m_timef : T
  m_lastTime : T
  m_dirty : Bool
  m_fovHint : ℚ
  m_heightHint : ℚ
  children : List Node
  renderBins : List (Node × Int)

namespace AbstractHimmel

variable {T : Type}

/-- Modelled from the spec: `AbstractHimmel::isDirty`. -/
def isDirty (h : AbstractHimmel T) : Bool := h.m_dirty

/-- Modelled from the spec: `AbstractHimmel::dirty(enable)`; `dirty()` is
`dirty(true)`. -/
def dirty (enable : Bool) (h : AbstractHimmel T) : AbstractHimmel T :=
  { h with m_dirty := enable }

/-- Modelled from the spec: `AbstractHimmel::update`, whose body is not among the
sources. "Any setLocation or update with a changed time moves Clean→Dirty"; an
update with an unchanged time changes nothing. -/
def update [DecidableEq T] (h : AbstractHimmel T) : AbstractHimmel T :=
  if h.m_timef = h.m_lastTime then h
  else { h with m_dirty := true, m_lastTime := h.m_timef }

/-- Modelled from the spec: the constructor `AbstractHimmel()`, whose body is not
among the sources, followed by `assignTime(timef)`. A himmel that never recomputed
is Dirty: Clean is "cached outputs match current snapshot" and nothing is cached
yet. -/
def new (timef : T) (fovHint heightHint : ℚ) : AbstractHimmel T :=
  { m_timef := timef, m_lastTime := timef, m_dirty := true,
    m_fovHint := fovHint, m_heightHint := heightHint,
    children := [], renderBins := [] }

/-- The method `osg::Group::addChild`. -/
def addChild (n : Node) (h : AbstractHimmel T) : AbstractHimmel T :=
  { h with children := h.children ++ [n] }

/-- The call `n->getOrCreateStateSet()->setRenderBinDetails(bin, "RenderBin")`. -/
def setRenderBinDetails (n : Node) (bin : Int) (h : AbstractHimmel T) : AbstractHimmel T :=
  { h with renderBins := h.renderBins ++ [(n, bin)] }

end AbstractHimmel

/-! ## Himmel -/

/-- The data members of `Himmel` on top of its base class: which component geodes
are present (a NULL pointer is `false` or `none`), the astronomy, the three
uniforms, and the record of the calls made on collaborators. -/
structure Himmel (T A : Type) extends AbstractHimmel T where
  m_milkyway : Bool
  m_moon : Bool
  m_stars : Option StarsGeode
  m_atmosphere : Bool
  m_highLayer : Bool
  m_astronomy : AbstractAstronomy A
  u_sun : Vec3
  u_time : ℚ
  u_common : Vec4
  calls : List (Call A)

namespace Himmel

variable {T A : Type}

/-- The static `Himmel::defaultAltitude` (himmel.cpp, lines 321-324). -/
def defaultAltitude : ℚ := 2 / 10

/-- The value of the uniform made by `Himmel::cmnUniform` (lines 143-146). -/
def cmnUniform (E : Env T A) : Vec4 :=
  { c0 := defaultAltitude, c1 := E.earth_meanRadius,
    c2 := E.earth_meanRadius + E.earth_atmosphereThicknessNonUniform, c3 := 0 }

/-- The method `Himmel::addAntiCull` (lines 252-268): one more child. -/
def addAntiCull (b : AbstractHimmel T) : AbstractHimmel T :=
  b.addChild Node.antiCull

/-- One `if(m_x) { addChild(m_x); ...->setRenderBinDetails(bin++, "RenderBin"); }`
block of the constructor, on the pair (node so far, `bin`). -/
def addComponent (present : Bool) (n : Node) (s : AbstractHimmel T × Int) :
    AbstractHimmel T × Int :=
  if present then ((s.1.addChild n).setRenderBinDetails n s.2, s.2 + 1) else s

/-- The constructor `Himmel::Himmel` (lines 64-140), after the base class was
constructed as `base`. `setCullingActive(false)` touches no state modelled here,
and `registerShader` is compiled only with OSGHIMMEL_ENABLE_SHADERMODIFIER. -/
def new (E : Env T A) (base : AbstractHimmel T) (milkyWay moon : Bool)
    (stars : Option StarsGeode) (atmosphere highLayer : Bool)
    (astronomy : AbstractAstronomy A) : Himmel T A :=
  let b := addAntiCull base
  let u_sun : Vec3 := { x := 0, y := 0, z := 0 }
  let u_time : ℚ := 0
  let u_common := cmnUniform E
  let s : AbstractHimmel T × Int := (b, 0)
  let s := addComponent milkyWay Node.milkyway s
  let s := addComponent stars.isSome Node.stars s
  let s := addComponent moon Node.moon s
  let s := addComponent atmosphere Node.atmosphere s
  let s := addComponent highLayer Node.highLayer s
  { toAbstractHimmel := s.1,
    m_milkyway := milkyWay, m_moon := moon, m_stars := stars,
    m_atmosphere := atmosphere, m_highLayer := highLayer,
    m_astronomy := astronomy,
    u_sun := u_sun, u_time := u_time, u_common := u_common, calls := [] }

/-- The factory `Himmel::create` (lines 49-62): all five components and an
astronomy, here the ones passed in. -/
def create (E : Env T A) (base : AbstractHimmel T) (stars : StarsGeode)
    (astronomy : AbstractAstronomy A) : Himmel T A :=
  new E base true true (some stars) true true astronomy

/-- The accessor `astro()`. -/
def astro (h : Himmel T A) : AbstractAstronomy A := h.m_astronomy

/-- The accessor `getTime()` of the base class: the assigned clock. -/
def getTime (h : Himmel T A) : T := h.m_timef

/-- The method `Himmel::updateSeed` (lines 227-234); `r` is what `rand()` returns. -/
def updateSeed (r : ℚ) (h : Himmel T A) : Himmel T A :=
  let temp := h.u_common
  let temp := { temp with c3 := r }
  { h with u_common := temp }

/-- A call of an update method that is not among the sources: recorded only. -/
def record (present : Bool) (c : Call A) (h : Himmel T A) : Himmel T A :=
  if present then { h with calls := h.calls ++ [c] } else h

/-- The call `m_stars->update(*this)` when `m_stars` is not NULL. -/
def updateStars (E : Env T A) (h : Himmel T A) : Himmel T A :=
  match h.m_stars with
  | some s =>
    { h with m_stars := some (s.update E h.m_fovHint h.m_heightHint h.astro),
             calls := h.calls ++ [Call.starsUpdate] }
  | none => h

/-- The body of `if(isDirty())` in `Himmel::update` (lines 204-222). -/
def recompute [DecidableEq A] (E : Env T A) (h : Himmel T A) : Himmel T A :=
  let aTime := E.fromTimeF h.getTime
  let h := { h with m_astronomy := h.m_astronomy.update E aTime,
                    calls := h.calls ++ [Call.astroUpdate aTime] }
  let sunv := h.astro.getSunPosition E
  let h := { h with u_sun := sunv }
  let h := { h with u_time := E.getf h.getTime }
  let h := record h.m_milkyway Call.milkywayUpdate h
  let h := record h.m_moon Call.moonUpdate h
  let h := updateStars E h
  let h := record h.m_atmosphere Call.atmosphereUpdate h
  let h := record h.m_highLayer Call.highLayerUpdate h
  { h with toAbstractHimmel := h.toAbstractHimmel.dirty false }

/-- The method `Himmel::update` (lines 196-224); `r` is what `rand()` returns. -/
def update [DecidableEq T] [DecidableEq A] (E : Env T A) (r : ℚ) (h : Himmel T A) :
    Himmel T A :=
  let h := { h with toAbstractHimmel := h.toAbstractHimmel.update }
  let h := updateSeed r h
  if h.isDirty then recompute E h else h

/-- The method `Himmel::getSunPosition() const` (lines 237-243). -/
def getSunPosition (h : Himmel T A) : Vec3 :=
  let sunv := h.u_sun
  sunv

/-- The method `Himmel::getSunPosition(const t_aTime &aTime) const` (lines 246-249). -/
def getSunPositionAt (E : Env T A) (aTime : A) (h : Himmel T A) : Vec3 :=
  E.getSunPositionAt h.astro aTime h.m_astronomy.getLatitude h.m_astronomy.getLongitude

/-- The method `Himmel::setLatitude` (lines 271-277). -/
def setLatitude (latitude : ℚ) (h : Himmel T A) : ℚ × Himmel T A :=
  let h := { h with toAbstractHimmel := h.toAbstractHimmel.dirty true }
  let r := h.m_astronomy.setLatitude latitude
  (r.1, { h with m_astronomy := r.2 })

/-- The method `Himmel::getLatitude` (lines 279-283). -/
def getLatitude (h : Himmel T A) : ℚ := h.m_astronomy.getLatitude

/-- The method `Himmel::setLongitude` (lines 286-292). -/
def setLongitude (longitude : ℚ) (h : Himmel T A) : ℚ × Himmel T A :=
  let h := { h with toAbstractHimmel := h.toAbstractHimmel.dirty true }
  let r := h.m_astronomy.setLongitude longitude
  (r.1, { h with m_astronomy := r.2 })

/-- The method `Himmel::getLongitude` (lines 294-298). -/
def getLongitude (h : Himmel T A) : ℚ := h.m_astronomy.getLongitude

/-- The method `Himmel::getAltitude` (lines 313-319). -/
def getAltitude (h : Himmel T A) : ℚ :=
  let temp := h.u_common
  temp.c0

/-- The method `Himmel::setAltitude` (lines 301-311). -/
def setAltitude (E : Env T A) (altitude : ℚ) (h : Himmel T A) : ℚ × Himmel T A :=
  let temp := h.u_common
  let temp := { temp with
    c0 := _clamp (1 / 1000) E.earth_atmosphereThicknessNonUniform altitude }
  let h := { h with u_common := temp }
  (h.getAltitude, h)

/-- Modelled from the spec: "the caller advances a shared clock"; the clock
`TimeF` is not among the sources. What `getTime()` reads becomes `t`. -/
def advanceClock (t : T) (h : Himmel T A) : Himmel T A :=
  { h with m_timef := t }

/-- The caller reaches the astronomy through `astro()` and applies a method `f`
of the astronomy to it; the himmel itself is not told. -/
def onAstro (f : AbstractAstronomy A → AbstractAstronomy A) (h : Himmel T A) :
    Himmel T A :=
  { h with m_astronomy := f h.m_astronomy }

/-- The updates of the components that are present, in the order `Himmel::update`
makes them. -/
def componentUpdates (h : Himmel T A) : List (Call A) :=
  (if h.m_milkyway then [Call.milkywayUpdate] else [])
  ++ (if h.m_moon then [Call.moonUpdate] else [])
  ++ (if h.m_stars.isSome then [Call.starsUpdate] else [])
  ++ (if h.m_atmosphere then [Call.atmosphereUpdate] else [])
  ++ (if h.m_highLayer then [Call.highLayerUpdate] else [])

end Himmel

/-! ## Calls from outside -/

/-- The const queries of a himmel. -/
inductive Query (A : Type) where
  | sunPosition
  | sunPositionAt (aTime : A)
  | latitude
  | longitude
  | altitude

/-- What a query returns. -/
inductive Answer where
  | vec (v : Vec3)
  | num (x : ℚ)
deriving DecidableEq

/-- A query is called on a himmel: the answer, and the himmel after the call. -/
def Himmel.ask {T A : Type} (E : Env T A) (q : Query A) (h : Himmel T A) :
    Answer × Himmel T A :=
  match q with
  | Query.sunPosition => (Answer.vec h.getSunPosition, h)
  | Query.sunPositionAt aTime => (Answer.vec (h.getSunPositionAt E aTime), h)
  | Query.latitude => (Answer.num h.getLatitude, h)
  | Query.longitude => (Answer.num h.getLongitude, h)
  | Query.altitude => (Answer.num h.getAltitude, h)

/-- The operations of a himmel that change it, with the clock moving in between. -/
inductive Op (T : Type) where
  | setLatitude (latitude : ℚ)
  | setLongitude (longitude : ℚ)
  | setAltitude (altitude : ℚ)
  | update (r : ℚ)
  | advanceClock (t : T)

/-- One operation is applied to a himmel. -/
def Himmel.step {T A : Type} [DecidableEq T] [DecidableEq A] (E : Env T A)
    (h : Himmel T A) (op : Op T) : Himmel T A :=
  match op with
  | Op.setLatitude latitude => (h.setLatitude latitude).2
  | Op.setLongitude longitude => (h.setLongitude longitude).2
  | Op.setAltitude altitude => (h.setAltitude E altitude).2
  | Op.update r => h.update E r
  | Op.advanceClock t => h.advanceClock t

/-- A sequence of operations is applied to a himmel, first to last. -/
def Himmel.run {T A : Type} [DecidableEq T] [DecidableEq A] (E : Env T A)
    (h : Himmel T A) (ops : List (Op T)) : Himmel T A :=
  ops.foldl (Himmel.step E) h

/-- The operations on an astronomy that change its time or its location. -/
inductive AstroOp (A : Type) where
  | update (aTime : A)
  | setLatitude (latitude : ℚ)
  | setLongitude (longitude : ℚ)

/-- One operation is applied to an astronomy. -/
def AbstractAstronomy.step {T A : Type} [DecidableEq A] (E : Env T A)
    (a : AbstractAstronomy A) (op : AstroOp A) : AbstractAstronomy A :=
  match op with
  | AstroOp.update aTime => a.update E aTime
  | AstroOp.setLatitude latitude => (a.setLatitude latitude).2
  | AstroOp.setLongitude longitude => (a.setLongitude longitude).2

/-- A sequence of operations is applied to an astronomy, first to last. -/
def AbstractAstronomy.run {T A : Type} [DecidableEq A] (E : Env T A)
    (a : AbstractAstronomy A) (ops : List (AstroOp A)) : AbstractAstronomy A :=
  ops.foldl (AbstractAstronomy.step E) a

/-! ## A concrete sky for examples -/

/-- The point of the unit circle in the plane z = 0 with rational parameter q. -/
def unitOf (q : ℚ) : Vec3 :=
  { x := (1 - q ^ 2) / (1 + q ^ 2), y := 2 * q / (1 + q ^ 2), z := 0 }

/-- An environment whose clock and astronomical time are rational numbers and whose
sun and moon directions are unit vectors that vary with time and latitude. -/
def demoEnv : Env ℚ ℚ :=
  { getf := fun t => t
    fromTimeF := fun t => t
    jd := fun t => t
    sunPosition := fun t lat _ => unitOf (t + lat)
    moonPosition := fun t lat _ => unitOf (t - lat)
    getSunPositionAt := fun _ t lat _ => unitOf (t + lat)
    equToLocalHorizonMatrix := fun a i j => if i = j then 1 else a.m_latitude
    quadWidth := fun fov height => fov / height
    earth_meanRadius := 6371
    earth_atmosphereThicknessNonUniform := 85 }

/-- An astronomy at time 0 on the equator at the prime meridian, no override. -/
def demoAstronomy : AbstractAstronomy ℚ :=
  { m_aTime := 0, m_t := 0, m_latitude := 0, m_longitude := 0,
    m_overrideMoonPosition := false, m_moonPosition := { x := 0, y := 0, z := 0 },
    m_overrideSunPosition := false, m_sunPosition := { x := 0, y := 0, z := 0 } }

/-- A stars geode before its first update. -/
def demoStars : StarsGeode :=
  { u_quadWidth := 0, u_R := fun i j => if i = j then 1 else 0,
    u_sun := { x := 0, y := 0, z := 0 } }

/-- A himmel with all five components, as `Himmel::create` builds it, with the
clock reading 0. -/
def demoHimmel : Himmel ℚ ℚ :=
  Himmel.create demoEnv (AbstractHimmel.new 0 45 600) demoStars demoAstronomy

/-- The vector (0, 0, 1), used as an override direction. -/
def zenith : Vec3 := { x := 0, y := 0, z := 1 }

/-- The override applied to an astronomy: the flag set, then the vector v. -/
def overrideSun (v : Vec3) (a : AbstractAstronomy ℚ) : AbstractAstronomy ℚ :=
  ((a.setOverrideSunPosition true).2.setSunPosition v).2

/-- The override of an astronomy switched off. -/
def releaseSun (a : AbstractAstronomy ℚ) : AbstractAstronomy ℚ :=
  (a.setOverrideSunPosition false).2

/-- The demo himmel after its sun was overridden with the zenith and one update
was made. -/
def overriddenHimmel : Himmel ℚ ℚ :=
  (demoHimmel.onAstro (overrideSun zenith)).update demoEnv 7

/-- The himmel `overriddenHimmel` right after the override was switched off. -/
def releasedHimmel : Himmel ℚ ℚ :=
  overriddenHimmel.onAstro releaseSun

/-- The demo himmel after one update, then moved to latitude 1. -/
def movedHimmel : Himmel ℚ ℚ :=
  ((demoHimmel.update demoEnv 7).setLatitude 1).2

/-- The himmel `overriddenHimmel` (sun overridden with the zenith, one update),
then moved to latitude 1: the override is still on and the himmel is dirty. -/
def overriddenMovedHimmel : Himmel ℚ ℚ :=
  (overriddenHimmel.setLatitude 1).2

/-- The component nodes that are present, in the order the constructor
`Himmel::Himmel` visits them (lines 105-133). -/
def Himmel.componentNodes (milkyWay moon stars atmosphere highLayer : Bool) : List Node :=
  (if milkyWay then [Node.milkyway] else [])
  ++ (if stars then [Node.stars] else [])
  ++ (if moon then [Node.moon] else [])
  ++ (if atmosphere then [Node.atmosphere] else [])
  ++ (if highLayer then [Node.highLayer] else [])

/-! ## The textured demo (apps/demo_textured/texturedmain.cpp) -/

/-- The enumeration `e_Demo` (lines 165-171). -/
inductive e_Demo where
  | D_PolarMappedHimmel
  | D_CubeMappedHimmel
  | D_ParaboloidMappedHimmel
  | D_SphereMappedHimmel
deriving DecidableEq

namespace e_Demo

/-- The integer value of an enumerator. -/
def toInt : e_Demo → Int
  | D_PolarMappedHimmel => 0
  | D_CubeMappedHimmel => 1
  | D_ParaboloidMappedHimmel => 2
  | D_SphereMappedHimmel => 3

/-- The cast `static_cast<e_Demo>(i)`. The handler casts a remainder modulo 4 of a
positive number only, so the last line is never reached. -/
def ofInt (i : Int) : e_Demo :=
  if i = 0 then D_PolarMappedHimmel
  else if i = 1 then D_CubeMappedHimmel
  else if i = 2 then D_ParaboloidMappedHimmel
  else if i = 3 then D_SphereMappedHimmel
  else D_PolarMappedHimmel

end e_Demo

/-- The methods of the clock `TimeF` that the key handler calls; timef.h is not
among the sources, `C` is the state of a clock. -/
structure TimeFMethods (C : Type) where
  update : C → C
  reset : C → C
  stop : C → C
  pause : C → C
  start : C → C
  isRunning : C → Bool
  getSecondsPerCycle : C → ℚ
  setSecondsPerCycle : ℚ → C → C

/-- The globals of the demo: `g_demo`, the node mask of each himmel of
`g_himmelsByDemo`, the clock `g_timef`, `g_fov`, and the field of view last given
to the camera by `fovChanged`. -/
structure Demo (C : Type) where
  g_demo : e_Demo
  nodeMask : e_Demo → Nat
  g_timef : C
  g_fov : ℚ
  cameraFov : ℚ

/-- The events the handler distinguishes: the type of the event with the key of a
KEYDOWN, whether a SCROLL is SCROLL_DOWN, and for a RELEASE whether the button is
the middle mouse button and whether the modifier mask has MODKEY_CTRL. -/
inductive Event where
  | FRAME
  | KEYDOWN (key : Nat)
  | SCROLL (down : Bool)
  | RELEASE (middle : Bool) (ctrl : Bool)
  | other

namespace Demo

variable {C : Type}

/-- The constant `g_fovBackup` (line 182). -/
def g_fovBackup : ℚ := 60

/-- The key code `osgGA::GUIEventAdapter::KEY_Space`. -/
def KEY_Space : Nat := 0x20

/-- The call `g_himmelsByDemo[d]->setNodeMask(mask)`. -/
def setNodeMask (d : e_Demo) (mask : Bool) (s : Demo C) : Demo C :=
  { s with nodeMask := fun k => if k = d then (if mask then 1 else 0) else s.nodeMask k }

/-- The function `activateDemo` (lines 186-192). -/
def activateDemo (demo : e_Demo) (s : Demo C) : Demo C :=
  let s := setNodeMask e_Demo.D_PolarMappedHimmel
    (decide (e_Demo.D_PolarMappedHimmel = demo)) s
  let s := setNodeMask e_Demo.D_CubeMappedHimmel
    (decide (e_Demo.D_CubeMappedHimmel = demo)) s
  let s := setNodeMask e_Demo.D_ParaboloidMappedHimmel
    (decide (e_Demo.D_ParaboloidMappedHimmel = demo)) s
  setNodeMask e_Demo.D_SphereMappedHimmel
    (decide (e_Demo.D_SphereMappedHimmel = demo)) s

/-- The function `fovChanged` (lines 283-287): the camera gets `g_fov`. -/
def fovChanged (s : Demo C) : Demo C :=
  { s with cameraFov := s.g_fov }

/-- The KEYDOWN case of `KeyboardEventHandler::handle` (lines 213-247). -/
def keyDown (M : TimeFMethods C) (key : Nat) (s : Demo C) : Demo C :=
  if key = KEY_Space then
    let s := { s with g_demo := e_Demo.ofInt (Int.tmod (s.g_demo.toInt + 1) 4) }
    activateDemo s.g_demo s
  else if key = 'r'.toNat ∨ key = 'R'.toNat then
    let s := { s with g_timef := M.reset s.g_timef }
    { s with g_timef := M.setSecondsPerCycle 60 s.g_timef }
  else if key = 's'.toNat ∨ key = 'S'.toNat then
    let s := { s with g_timef := M.stop s.g_timef }
    { s with g_timef := M.setSecondsPerCycle 60 s.g_timef }
  else if key = 'p'.toNat ∨ key = 'P'.toNat then
    if M.isRunning s.g_timef then { s with g_timef := M.pause s.g_timef }
    else { s with g_timef := M.start s.g_timef }
  else if key = '-'.toNat then
    { s with g_timef :=
        M.setSecondsPerCycle (M.getSecondsPerCycle s.g_timef + 1) s.g_timef }
  else if key = '+'.toNat then
    if M.getSecondsPerCycle s.g_timef - 1 > 0 then
      { s with g_timef :=
          M.setSecondsPerCycle (M.getSecondsPerCycle s.g_timef - 1) s.g_timef }
    else s
  else s

/-- The method `KeyboardEventHandler::handle` (lines 204-279): what it returns and
the globals afterwards. -/
def handle (M : TimeFMethods C) (ea : Event) (s : Demo C) : Bool × Demo C :=
  match ea with
  | Event.FRAME => (false, { s with g_timef := M.update s.g_timef })
  | Event.KEYDOWN key => (false, keyDown M key s)
  | Event.SCROLL down =>
    let f : ℚ := 1 + (if down then -(8 / 100) else 8 / 100)
    let s := if s.g_fov * f ≥ 1 ∧ s.g_fov * f ≤ 179 then { s with g_fov := s.g_fov * f }
      else s
    (true, fovChanged s)
  | Event.RELEASE middle ctrl =>
    if middle ∧ ctrl then
      let s := { s with g_fov := g_fovBackup }
      (true, fovChanged s)
    else (false, s)
  | Event.other => (false, s)

/-- A sequence of events is handled, first to last. -/
def handleAll (M : TimeFMethods C) (eas : List Event) (s : Demo C) : Demo C :=
  eas.foldl (fun s ea => (handle M ea s).2) s

/-- The method `osg::ArgumentParser::read(str)`: when `str` is among the arguments
its first occurrence is removed and the answer is true. -/
def argumentsRead (str : String) (arguments : List String) : Bool × List String :=
  if str ∈ arguments then (true, arguments.erase str) else (false, arguments)

/-- The loop `while(arguments.read(str)) g_demo = demo;` on the pair
(`g_demo`, arguments). Every turn removes one argument, so the loop ends. -/
def whileRead (str : String) (demo : e_Demo) (s : e_Demo × List String) :
    e_Demo × List String :=
  if (argumentsRead str s.2).1 = true then
    whileRead str demo (demo, (argumentsRead str s.2).2)
  else s
termination_by s.2.length
decreasing_by
  rename_i hread
  have hmem : str ∈ s.2 := by
    by_contra hn
    simp [argumentsRead, hn] at hread
  have hpos := List.length_pos_of_mem hmem
  simp only [argumentsRead, hmem, if_true, List.length_erase_of_mem hmem]
  omega

/-- The part of `main` (lines 432-457) that reads the demo flags; `none` when the
help flag makes `main` return first. -/
def readFlags (arguments : List String) : Option (e_Demo × List String) :=
  let r := argumentsRead "-h" arguments
  let r := if r.1 then r else argumentsRead "--help" r.2
  if r.1 then none
  else
    let s : e_Demo × List String := (e_Demo.D_PolarMappedHimmel, r.2)
    let s := whileRead "--polar" e_Demo.D_PolarMappedHimmel s
    let s := whileRead "--cube" e_Demo.D_CubeMappedHimmel s
    let s := whileRead "--paraboloid" e_Demo.D_ParaboloidMappedHimmel s
    let s := whileRead "--sphere" e_Demo.D_SphereMappedHimmel s
    some s

/-- The globals when `main` reaches `viewer.run()` (lines 445-492) with the clock
`timef`: the four himmels were created with the node mask 0xffffffff of a new
node, then `activateDemo(g_demo)` was called; `none` when `main` returned at the
help flag. -/
def main (timef : C) (arguments : List String) : Option (Demo C) :=
  match readFlags arguments with
  | none => none
  | some (demo, _) =>
    let s : Demo C :=
      { g_demo := demo, nodeMask := fun _ => 0xffffffff, g_timef := timef,
        g_fov := g_fovBackup, cameraFov := g_fovBackup }
    some (activateDemo s.g_demo s)

end Demo

/-- A clock for examples: its seconds per cycle and whether it runs. -/
structure DemoClock where
  secondsPerCycle : ℚ
  running : Bool
  elapsed : ℚ

/-- The methods of the example clock. -/
def demoClockMethods : TimeFMethods DemoClock :=
  { update := fun c => if c.running then { c with elapsed := c.elapsed + 1 } else c
    reset := fun c => { c with elapsed := 0 }
    stop := fun c => { c with elapsed := 0, running := false }
    pause := fun c => { c with running := false }
    start := fun c => { c with running := true }
    isRunning := fun c => c.running
    getSecondsPerCycle := fun c => c.secondsPerCycle
    setSecondsPerCycle := fun x c => { c with secondsPerCycle := x } }

/-- The clock `g_timef` as the demo creates it, `TimeF(0.f, 60.f)` (line 48): 60
seconds per cycle. -/
def g_timef : DemoClock := { secondsPerCycle := 60, running := false, elapsed := 0 }

/-- The globals of the demo with the polar mapped himmel active and the clock at
60 seconds per cycle. -/
def demoGlobals : Demo DemoClock :=
  Demo.activateDemo e_Demo.D_PolarMappedHimmel
    { g_demo := e_Demo.D_PolarMappedHimmel, nodeMask := fun _ => 0xffffffff,
      g_timef := g_timef, g_fov := 60, cameraFov := 60 }

/-! ## Location -/

theorem clamp_range (l u x : ℚ) (hlu : l ≤ u) : l ≤ _clamp l u x ∧ _clamp l u x ≤ u := by
  unfold _clamp
  split_ifs with h1 h2
  · exact ⟨le_refl l, hlu⟩
  · exact ⟨hlu, le_refl u⟩
  · exact ⟨not_lt.mp h1, not_lt.mp h2⟩

theorem wrapLongitude_range (x : ℚ) : -180 ≤ wrapLongitude x ∧ wrapLongitude x < 180 := by
  unfold wrapLongitude
  have h1 : ((⌊(x + 180) / 360⌋ : ℤ) : ℚ) ≤ (x + 180) / 360 := Int.floor_le _
  have h2 : (x + 180) / 360 < ((⌊(x + 180) / 360⌋ : ℤ) : ℚ) + 1 := Int.lt_floor_add_one _
  rw [le_div_iff₀ (by norm_num)] at h1
  rw [div_lt_iff₀ (by norm_num)] at h2
  constructor <;> linarith

theorem wrapLongitude_190 : wrapLongitude 190 = -170 := by
  unfold wrapLongitude
  have h : ⌊((190 : ℚ) + 180) / 360⌋ = 1 := by
    rw [Int.floor_eq_iff]; norm_num
  rw [h]; norm_num

/-- C1. For every latitude x and every himmel, `Himmel::setLatitude(x)` returns a
value (the function is total) that lies in [-90, 90]; it is x when
-90 <= x <= 90, it is 90 when x > 90 and -90 when x < -90, so 100 gives 90 and
-100 gives -90; and `getLatitude()` on the himmel afterwards, and on its
astronomy, returns that same value. -/
theorem C1_setLatitude_clamps {T A : Type} (x : ℚ) (h : Himmel T A) :
    (-90 ≤ (h.setLatitude x).1 ∧ (h.setLatitude x).1 ≤ 90)
    ∧ (-90 ≤ x ∧ x ≤ 90 → (h.setLatitude x).1 = x)
    ∧ (90 < x → (h.setLatitude x).1 = 90)
    ∧ (x < -90 → (h.setLatitude x).1 = -90)
    ∧ (h.setLatitude 100).1 = 90
    ∧ (h.setLatitude (-100)).1 = -90
    ∧ (h.setLatitude x).2.getLatitude = (h.setLatitude x).1
    ∧ (h.setLatitude x).2.astro.getLatitude = (h.setLatitude x).1 := by
  have hv : ∀ y : ℚ, (h.setLatitude y).1 = _clamp (-90) 90 y := fun _ => rfl
  refine ⟨?_, ?_, ?_, ?_, ?_, ?_, rfl, rfl⟩
  · rw [hv]; exact clamp_range _ _ _ (by norm_num)
  · rintro ⟨h1, h2⟩
    rw [hv]; unfold _clamp
    rw [if_neg (not_lt.mpr h1), if_neg (not_lt.mpr h2)]
  · intro h1
    rw [hv]; unfold _clamp
    rw [if_neg (not_lt.mpr (by linarith)), if_pos h1]
  · intro h1
    rw [hv]; unfold _clamp
    rw [if_pos h1]
  · rw [hv]; norm_num [_clamp]
  · rw [hv]; norm_num [_clamp]

/-- C2. For every longitude x and every himmel, `Himmel::setLongitude(x)` returns a
value in [-180, 180) that differs from x by an integer multiple of 360, so 190
gives -170; and `getLongitude()` on the himmel afterwards, and on its astronomy,
returns that same value. -/
theorem C2_setLongitude_wraps {T A : Type} (x : ℚ) (h : Himmel T A) :
    (-180 ≤ (h.setLongitude x).1 ∧ (h.setLongitude x).1 < 180)
    ∧ (∃ k : ℤ, (h.setLongitude x).1 = x - 360 * k)
    ∧ (h.setLongitude 190).1 = 190 - 360
    ∧ (h.setLongitude 190).1 = -170
    ∧ (h.setLongitude x).2.getLongitude = (h.setLongitude x).1
    ∧ (h.setLongitude x).2.astro.getLongitude = (h.setLongitude x).1 := by
  have hv : ∀ y : ℚ, (h.setLongitude y).1 = wrapLongitude y := fun _ => rfl
  refine ⟨?_, ⟨⌊(x + 180) / 360⌋, rfl⟩, ?_, ?_, rfl, rfl⟩
  · rw [hv]; exact wrapLongitude_range x
  · rw [hv, wrapLongitude_190]; norm_num
  · rw [hv, wrapLongitude_190]

/-! ## What one update does -/

section UpdateLemmas

theorem astro_update_time {T A : Type} [DecidableEq A] (E : Env T A) (t : A) (a : AbstractAstronomy A) :
    (a.update E t).m_aTime = t
    ∧ (a.update E t).m_latitude = a.m_latitude
    ∧ (a.update E t).m_longitude = a.m_longitude
    ∧ (a.update E t).m_overrideSunPosition = a.m_overrideSunPosition
    ∧ (a.update E t).m_sunPosition = a.m_sunPosition
    ∧ (a.update E t).m_overrideMoonPosition = a.m_overrideMoonPosition
    ∧ (a.update E t).m_moonPosition = a.m_moonPosition := by
  unfold AbstractAstronomy.update
  split_ifs with h
  · exact ⟨h.symm, rfl, rfl, rfl, rfl, rfl, rfl⟩
  · exact ⟨rfl, rfl, rfl, rfl, rfl, rfl, rfl⟩

theorem recompute_fields {T A : Type} [DecidableEq A] (E : Env T A) (h : Himmel T A) :
    (h.recompute E).m_astronomy = h.m_astronomy.update E (E.fromTimeF h.m_timef)
    ∧ (h.recompute E).u_sun
        = (h.m_astronomy.update E (E.fromTimeF h.m_timef)).getSunPosition E
    ∧ (h.recompute E).u_time = E.getf h.m_timef
    ∧ (h.recompute E).m_dirty = false
    ∧ (h.recompute E).calls
        = h.calls ++ Call.astroUpdate (E.fromTimeF h.m_timef) :: h.componentUpdates
    ∧ (h.recompute E).m_stars
        = h.m_stars.map (StarsGeode.update E h.m_fovHint h.m_heightHint
            (h.m_astronomy.update E (E.fromTimeF h.m_timef)))
    ∧ (h.recompute E).u_common = h.u_common
    ∧ (h.recompute E).m_timef = h.m_timef
    ∧ (h.recompute E).m_lastTime = h.m_lastTime := by
  obtain ⟨b, mw, mo, st, atm, hl, astr, us, ut, uc, cs⟩ := h
  cases mw <;> cases mo <;> cases st <;> cases atm <;> cases hl <;>
    simp [Himmel.recompute, Himmel.record, Himmel.updateStars, Himmel.astro, Himmel.getTime,
      AbstractHimmel.dirty, Himmel.componentUpdates]

theorem update_clean {T A : Type} [DecidableEq T] [DecidableEq A] (E : Env T A) (r : ℚ) (h : Himmel T A)
    (hd : h.m_dirty = false) (ht : h.m_timef = h.m_lastTime) :
    h.update E r = h.updateSeed r := by
  simp [Himmel.update, AbstractHimmel.update, ht, Himmel.updateSeed,
    AbstractHimmel.isDirty, hd]

theorem update_dirty {T A : Type} [DecidableEq T] [DecidableEq A] (E : Env T A) (r : ℚ) (h : Himmel T A)
    (hd : h.m_dirty = true ∨ h.m_timef ≠ h.m_lastTime) :
    ∃ b : AbstractHimmel T, b.m_timef = h.m_timef ∧ b.m_fovHint = h.m_fovHint
      ∧ b.m_heightHint = h.m_heightHint ∧ b.m_lastTime = h.m_timef
      ∧ h.update E r = ({ h with toAbstractHimmel := b, u_common := { h.u_common with c3 := r } }
          : Himmel T A).recompute E := by
  by_cases ht : h.m_timef = h.m_lastTime
  · have hd1 : h.m_dirty = true := by
      rcases hd with hd | hd
      · exact hd
      · exact absurd ht hd
    refine ⟨h.toAbstractHimmel, rfl, rfl, rfl, ht.symm, ?_⟩
    simp [Himmel.update, AbstractHimmel.update, ht, Himmel.updateSeed,
      AbstractHimmel.isDirty, hd1]
  · refine ⟨{ h.toAbstractHimmel with m_dirty := true, m_lastTime := h.m_timef },
      rfl, rfl, rfl, rfl, ?_⟩
    simp [Himmel.update, AbstractHimmel.update, ht, Himmel.updateSeed,
      AbstractHimmel.isDirty]

theorem update_dirty_fields {T A : Type} [DecidableEq T] [DecidableEq A] (E : Env T A)
    (r : ℚ) (h : Himmel T A) (hd : h.m_dirty = true ∨ h.m_timef ≠ h.m_lastTime) :
    (h.update E r).m_astronomy = h.m_astronomy.update E (E.fromTimeF h.m_timef)
    ∧ (h.update E r).u_sun
        = (h.m_astronomy.update E (E.fromTimeF h.m_timef)).getSunPosition E
    ∧ (h.update E r).u_time = E.getf h.m_timef
    ∧ (h.update E r).m_dirty = false
    ∧ (h.update E r).calls
        = h.calls ++ Call.astroUpdate (E.fromTimeF h.m_timef) :: h.componentUpdates
    ∧ (h.update E r).m_stars
        = h.m_stars.map (StarsGeode.update E h.m_fovHint h.m_heightHint
            (h.m_astronomy.update E (E.fromTimeF h.m_timef)))
    ∧ (h.update E r).m_timef = h.m_timef
    ∧ (h.update E r).m_lastTime = h.m_timef := by
  obtain ⟨b, hb1, hb2, hb3, hb4, hu⟩ := update_dirty E r h hd
  have hf := recompute_fields E
    ({ h with toAbstractHimmel := b, u_common := { h.u_common with c3 := r } } : Himmel T A)
  rw [hu]
  obtain ⟨f1, f2, f3, f4, f5, f6, _, f8, f9⟩ := hf
  simp only [hb1, hb2, hb3, hb4] at f1 f2 f3 f5 f6 f8 f9
  exact ⟨f1, f2, f3, f4, f5, f6, f8, f9⟩

theorem update_not_dirty {T A : Type} [DecidableEq T] [DecidableEq A] (E : Env T A)
    (r : ℚ) (h : Himmel T A) : (h.update E r).m_dirty = false := by
  by_cases hd : h.m_dirty = true ∨ h.m_timef ≠ h.m_lastTime
  · exact (update_dirty_fields E r h hd).2.2.2.1
  · push_neg at hd
    rw [update_clean E r h (by simpa using hd.1) hd.2]
    simpa [Himmel.updateSeed] using hd.1

theorem update_astronomy {T A : Type} [DecidableEq T] [DecidableEq A] (E : Env T A)
    (r : ℚ) (h : Himmel T A) :
    (h.update E r).m_astronomy = h.m_astronomy
    ∨ (h.update E r).m_astronomy = h.m_astronomy.update E (E.fromTimeF h.m_timef) := by
  by_cases hd : h.m_dirty = true ∨ h.m_timef ≠ h.m_lastTime
  · exact Or.inr (update_dirty_fields E r h hd).1
  · push_neg at hd
    rw [update_clean E r h (by simpa using hd.1) hd.2]
    exact Or.inl rfl

theorem step_override {T A : Type} [DecidableEq T] [DecidableEq A] (E : Env T A)
    (h : Himmel T A) (op : Op T) :
    (h.step E op).m_astronomy.m_overrideSunPosition = h.m_astronomy.m_overrideSunPosition
    ∧ (h.step E op).m_astronomy.m_sunPosition = h.m_astronomy.m_sunPosition
    ∧ (h.step E op).m_astronomy.m_overrideMoonPosition
        = h.m_astronomy.m_overrideMoonPosition
    ∧ (h.step E op).m_astronomy.m_moonPosition = h.m_astronomy.m_moonPosition := by
  cases op with
  | setLatitude x => exact ⟨rfl, rfl, rfl, rfl⟩
  | setLongitude x => exact ⟨rfl, rfl, rfl, rfl⟩
  | setAltitude x => exact ⟨rfl, rfl, rfl, rfl⟩
  | advanceClock t => exact ⟨rfl, rfl, rfl, rfl⟩
  | update r =>
    have hs : h.step E (Op.update r) = h.update E r := rfl
    rw [hs]
    rcases update_astronomy E r h with hu | hu
    · rw [hu]; exact ⟨rfl, rfl, rfl, rfl⟩
    · rw [hu]
      obtain ⟨_, _, _, h4, h5, h6, h7⟩ :=
        astro_update_time E (E.fromTimeF h.m_timef) h.m_astronomy
      exact ⟨h4, h5, h6, h7⟩

theorem run_override {T A : Type} [DecidableEq T] [DecidableEq A] (E : Env T A)
    (ops : List (Op T)) (h : Himmel T A) :
    (h.run E ops).m_astronomy.m_overrideSunPosition = h.m_astronomy.m_overrideSunPosition
    ∧ (h.run E ops).m_astronomy.m_sunPosition = h.m_astronomy.m_sunPosition
    ∧ (h.run E ops).m_astronomy.m_overrideMoonPosition
        = h.m_astronomy.m_overrideMoonPosition
    ∧ (h.run E ops).m_astronomy.m_moonPosition = h.m_astronomy.m_moonPosition := by
  induction ops generalizing h with
  | nil => exact ⟨rfl, rfl, rfl, rfl⟩
  | cons op ops ih =>
    obtain ⟨i1, i2, i3, i4⟩ := ih (h.step E op)
    obtain ⟨s1, s2, s3, s4⟩ := step_override E h op
    exact ⟨i1.trans s1, i2.trans s2, i3.trans s3, i4.trans s4⟩

theorem astro_step_override {T A : Type} [DecidableEq A] (E : Env T A)
    (a : AbstractAstronomy A) (op : AstroOp A) :
    (a.step E op).m_overrideSunPosition = a.m_overrideSunPosition
    ∧ (a.step E op).m_sunPosition = a.m_sunPosition
    ∧ (a.step E op).m_overrideMoonPosition = a.m_overrideMoonPosition
    ∧ (a.step E op).m_moonPosition = a.m_moonPosition := by
  cases op with
  | setLatitude x => exact ⟨rfl, rfl, rfl, rfl⟩
  | setLongitude x => exact ⟨rfl, rfl, rfl, rfl⟩
  | update t =>
    obtain ⟨_, _, _, h4, h5, h6, h7⟩ := astro_update_time E t a
    exact ⟨h4, h5, h6, h7⟩

theorem astro_run_override {T A : Type} [DecidableEq A] (E : Env T A)
    (ops : List (AstroOp A)) (a : AbstractAstronomy A) :
    (a.run E ops).m_overrideSunPosition = a.m_overrideSunPosition
    ∧ (a.run E ops).m_sunPosition = a.m_sunPosition
    ∧ (a.run E ops).m_overrideMoonPosition = a.m_overrideMoonPosition
    ∧ (a.run E ops).m_moonPosition = a.m_moonPosition := by
  induction ops generalizing a with
  | nil => exact ⟨rfl, rfl, rfl, rfl⟩
  | cons op ops ih =>
    obtain ⟨i1, i2, i3, i4⟩ := ih (a.step E op)
    obtain ⟨s1, s2, s3, s4⟩ := astro_step_override E a op
    exact ⟨i1.trans s1, i2.trans s2, i3.trans s3, i4.trans s4⟩

end UpdateLemmas

/-! ## Override state -/

/-- C3. Override round trip. After `setOverrideSunPosition(true)` and
`setSunPosition(v)` on an astronomy, in either order, `getSunPosition()` returns
exactly v, and it still does after any sequence of `update(aTime)`,
`setLatitude` and `setLongitude` calls, that is for every time and every
location; the same holds for the moon. On a himmel whose astronomy was so
overridden, any sequence of `Himmel::update`, location and altitude changes and
clock movements leaves the flag set and the astronomy reporting v. -/
theorem C3_override_round_trip {T A : Type} [DecidableEq T] [DecidableEq A]
    (E : Env T A) (v : Vec3) (a : AbstractAstronomy A) (ops : List (AstroOp A))
    (h : Himmel T A) (hops : List (Op T)) :
    ((((a.setOverrideSunPosition true).2.setSunPosition v).2.run E ops).getSunPosition E = v
      ∧ (((a.setSunPosition v).2.setOverrideSunPosition true).2.run E ops).getSunPosition E
          = v)
    ∧ ((((a.setOverrideMoonPosition true).2.setMoonPosition v).2.run E ops).getMoonPosition E
          = v
      ∧ (((a.setMoonPosition v).2.setOverrideMoonPosition true).2.run E ops).getMoonPosition E
          = v)
    ∧ (((h.onAstro (fun a =>
          ((a.setOverrideSunPosition true).2.setSunPosition v).2)).run E hops).astro.getSunPosition E
          = v
      ∧ ((h.onAstro (fun a =>
          ((a.setOverrideSunPosition true).2.setSunPosition v).2)).run E
            hops).astro.getOverrideSunPosition = true)
    ∧ (((h.onAstro (fun a =>
          ((a.setOverrideMoonPosition true).2.setMoonPosition v).2)).run E hops).astro.getMoonPosition E
          = v
      ∧ ((h.onAstro (fun a =>
          ((a.setOverrideMoonPosition true).2.setMoonPosition v).2)).run E
            hops).astro.getOverrideMoonPosition = true) := by
  refine ⟨⟨?_, ?_⟩, ⟨?_, ?_⟩, ⟨?_, ?_⟩, ⟨?_, ?_⟩⟩
  · obtain ⟨h1, h2, _, _⟩ :=
      astro_run_override E ops ((a.setOverrideSunPosition true).2.setSunPosition v).2
    unfold AbstractAstronomy.getSunPosition
    rw [h1, h2]; rfl
  · obtain ⟨h1, h2, _, _⟩ :=
      astro_run_override E ops ((a.setSunPosition v).2.setOverrideSunPosition true).2
    unfold AbstractAstronomy.getSunPosition
    rw [h1, h2]; rfl
  · obtain ⟨_, _, h1, h2⟩ :=
      astro_run_override E ops ((a.setOverrideMoonPosition true).2.setMoonPosition v).2
    unfold AbstractAstronomy.getMoonPosition
    rw [h1, h2]; rfl
  · obtain ⟨_, _, h1, h2⟩ :=
      astro_run_override E ops ((a.setMoonPosition v).2.setOverrideMoonPosition true).2
    unfold AbstractAstronomy.getMoonPosition
    rw [h1, h2]; rfl
  · obtain ⟨h1, h2, _, _⟩ := run_override E hops
      (h.onAstro (fun a => ((a.setOverrideSunPosition true).2.setSunPosition v).2))
    unfold AbstractAstronomy.getSunPosition Himmel.astro
    rw [h1, h2]; rfl
  · obtain ⟨h1, _, _, _⟩ := run_override E hops
      (h.onAstro (fun a => ((a.setOverrideSunPosition true).2.setSunPosition v).2))
    unfold AbstractAstronomy.getOverrideSunPosition Himmel.astro
    rw [h1]; rfl
  · obtain ⟨_, _, h1, h2⟩ := run_override E hops
      (h.onAstro (fun a => ((a.setOverrideMoonPosition true).2.setMoonPosition v).2))
    unfold AbstractAstronomy.getMoonPosition Himmel.astro
    rw [h1, h2]; rfl
  · obtain ⟨_, _, h1, _⟩ := run_override E hops
      (h.onAstro (fun a => ((a.setOverrideMoonPosition true).2.setMoonPosition v).2))
    unfold AbstractAstronomy.getOverrideMoonPosition Himmel.astro
    rw [h1]; rfl

theorem create_dirty {T A : Type} (E : Env T A) (base : AbstractHimmel T)
    (milkyWay moon : Bool) (stars : Option StarsGeode) (atmosphere highLayer : Bool)
    (astronomy : AbstractAstronomy A) :
    (Himmel.new E base milkyWay moon stars atmosphere highLayer astronomy).m_dirty
        = base.m_dirty
    ∧ (Himmel.new E base milkyWay moon stars atmosphere highLayer astronomy).m_timef
        = base.m_timef
    ∧ (Himmel.new E base milkyWay moon stars atmosphere highLayer astronomy).m_astronomy
        = astronomy := by
  cases milkyWay <;> cases moon <;> cases stars <;> cases atmosphere <;> cases highLayer <;>
    simp [Himmel.new, Himmel.addComponent, Himmel.addAntiCull, AbstractHimmel.addChild,
      AbstractHimmel.setRenderBinDetails]

theorem demoHimmel_dirty : demoHimmel.m_dirty = true :=
  (create_dirty demoEnv (AbstractHimmel.new 0 45 600) true true (some demoStars) true true
    demoAstronomy).1

theorem demoHimmel_fields :
    demoHimmel.m_timef = 0 ∧ demoHimmel.m_lastTime = 0
    ∧ demoHimmel.m_astronomy = demoAstronomy := by
  simp [demoHimmel, Himmel.create, Himmel.new, Himmel.addComponent, Himmel.addAntiCull,
    AbstractHimmel.addChild, AbstractHimmel.setRenderBinDetails, AbstractHimmel.new]

theorem overriddenHimmel_fields :
    overriddenHimmel.u_sun = zenith
    ∧ overriddenHimmel.m_astronomy = overrideSun zenith demoAstronomy
    ∧ overriddenHimmel.m_dirty = false := by
  have hd : (demoHimmel.onAstro (overrideSun zenith)).m_dirty = true := demoHimmel_dirty
  obtain ⟨f1, f2, _, f4, _⟩ :=
    update_dirty_fields demoEnv 7 (demoHimmel.onAstro (overrideSun zenith)) (Or.inl hd)
  obtain ⟨d1, _, d3⟩ := demoHimmel_fields
  have ha : (demoHimmel.onAstro (overrideSun zenith)).m_astronomy
      = overrideSun zenith demoAstronomy := by
    show overrideSun zenith demoHimmel.m_astronomy = _
    rw [d3]
  have ht : (demoHimmel.onAstro (overrideSun zenith)).m_timef = 0 := d1
  have hu : (overrideSun zenith demoAstronomy).update demoEnv
      (demoEnv.fromTimeF (demoHimmel.onAstro (overrideSun zenith)).m_timef)
      = overrideSun zenith demoAstronomy := by
    rw [ht]
    simp [AbstractAstronomy.update, overrideSun, AbstractAstronomy.setOverrideSunPosition,
      AbstractAstronomy.setSunPosition, demoAstronomy, demoEnv]
  rw [ha, hu] at f1 f2
  refine ⟨?_, f1, f4⟩
  show overriddenHimmel.u_sun = zenith
  unfold overriddenHimmel
  rw [f2]
  simp [AbstractAstronomy.getSunPosition, overrideSun,
    AbstractAstronomy.setOverrideSunPosition, AbstractAstronomy.setSunPosition]

/-- C4 as stated fails. On the himmel `releasedHimmel` (sun overridden with the
zenith, one update, override switched off, no update since)
`Himmel::getSunPosition()` still returns the zenith, while the astronomy's
computed sun position for the current time 0 and location (0, 0) is (1, 0, 0). -/
theorem C4_counterexample :
    releasedHimmel.getSunPosition = zenith
    ∧ releasedHimmel.astro.getOverrideSunPosition = false
    ∧ releasedHimmel.astro.getSunPosition demoEnv = { x := 1, y := 0, z := 0 }
    ∧ demoEnv.sunPosition releasedHimmel.astro.m_aTime releasedHimmel.getLatitude
        releasedHimmel.getLongitude = { x := 1, y := 0, z := 0 }
    ∧ releasedHimmel.getSunPosition ≠ releasedHimmel.astro.getSunPosition demoEnv := by
  obtain ⟨f1, f2, _⟩ := overriddenHimmel_fields
  have h1 : releasedHimmel.getSunPosition = zenith := f1
  have ha : releasedHimmel.astro = releaseSun (overrideSun zenith demoAstronomy) := by
    show releaseSun overriddenHimmel.m_astronomy = _
    rw [f2]
  have h3 : releasedHimmel.astro.getSunPosition demoEnv = { x := 1, y := 0, z := 0 } := by
    rw [ha]
    simp [AbstractAstronomy.getSunPosition, releaseSun, overrideSun,
      AbstractAstronomy.setOverrideSunPosition, AbstractAstronomy.setSunPosition,
      demoAstronomy, demoEnv, unitOf]
  refine ⟨h1, ?_, h3, ?_, ?_⟩
  · rw [ha]; rfl
  · unfold Himmel.getLatitude Himmel.getLongitude
    have ha2 : releasedHimmel.m_astronomy = releaseSun (overrideSun zenith demoAstronomy) := ha
    rw [ha, ha2]
    simp [AbstractAstronomy.getLatitude, AbstractAstronomy.getLongitude, releaseSun,
      overrideSun, AbstractAstronomy.setOverrideSunPosition,
      AbstractAstronomy.setSunPosition, demoAstronomy, demoEnv, unitOf]
  · rw [h1, h3]
    simp [zenith]

/-- C4, amended. Switching the sun (or moon) override off makes the astronomy's
own `getSunPosition()` (`getMoonPosition()`) return the computed position for its
current time and location at once, with no update. `Himmel::getSunPosition()`
returns the cached sun uniform, which switching the override off leaves as it
was, as it leaves the dirty flag. The next `Himmel::update()` leaves the cached
value when the himmel is not dirty and its clock has not moved, and when the
himmel is dirty it makes `Himmel::getSunPosition()` the computed position for the
clock's time and the stored location. -/
theorem C4_override_off_amended {T A : Type} [DecidableEq T] [DecidableEq A]
    (E : Env T A) (a : AbstractAstronomy A) (h : Himmel T A) (r : ℚ) :
    (a.setOverrideSunPosition false).2.getSunPosition E
        = E.sunPosition a.m_aTime a.getLatitude a.getLongitude
    ∧ (a.setOverrideMoonPosition false).2.getMoonPosition E
        = E.moonPosition a.m_aTime a.getLatitude a.getLongitude
    ∧ (h.onAstro (fun a => (a.setOverrideSunPosition false).2)).getSunPosition
        = h.getSunPosition
    ∧ (h.onAstro (fun a => (a.setOverrideSunPosition false).2)).isDirty = h.isDirty
    ∧ (h.isDirty = false → h.getTime = h.m_lastTime →
        ((h.onAstro (fun a => (a.setOverrideSunPosition false).2)).update E r).getSunPosition
          = h.getSunPosition)
    ∧ (h.isDirty = true →
        ((h.onAstro (fun a => (a.setOverrideSunPosition false).2)).update E r).getSunPosition
          = E.sunPosition (E.fromTimeF h.getTime) h.getLatitude h.getLongitude) := by
  refine ⟨rfl, rfl, rfl, rfl, ?_, ?_⟩
  · intro hd ht
    rw [update_clean E r (h.onAstro (fun a => (a.setOverrideSunPosition false).2)) hd ht]
    rfl
  intro hd
  have hd1 : (h.onAstro (fun a => (a.setOverrideSunPosition false).2)).m_dirty = true := hd
  obtain ⟨_, f2, _⟩ := update_dirty_fields E r
    (h.onAstro (fun a => (a.setOverrideSunPosition false).2)) (Or.inl hd1)
  show ((h.onAstro (fun a => (a.setOverrideSunPosition false).2)).update E r).u_sun = _
  rw [f2]
  obtain ⟨t1, t2, t3, t4, _⟩ := astro_update_time E
    (E.fromTimeF (h.onAstro (fun a => (a.setOverrideSunPosition false).2)).m_timef)
    (h.onAstro (fun a => (a.setOverrideSunPosition false).2)).m_astronomy
  unfold AbstractAstronomy.getSunPosition
  rw [t1, t2, t3, t4]
  rfl

theorem overriddenHimmel_clock :
    overriddenHimmel.m_timef = 0 ∧ overriddenHimmel.m_lastTime = 0 := by
  have hd : (demoHimmel.onAstro (overrideSun zenith)).m_dirty = true := demoHimmel_dirty
  obtain ⟨_, _, _, _, _, _, f7, f8⟩ :=
    update_dirty_fields demoEnv 7 (demoHimmel.onAstro (overrideSun zenith)) (Or.inl hd)
  have ht : (demoHimmel.onAstro (overrideSun zenith)).m_timef = 0 := demoHimmel_fields.1
  rw [ht] at f7 f8
  exact ⟨f7, f8⟩

/-- C4, amended, at himmels whose sun override was on. On `overriddenHimmel` (sun
overridden with the zenith, then one update) the override is on, the himmel is
not dirty and its clock has not moved: with the override switched off, one more
update still leaves the zenith as `Himmel::getSunPosition()`. On
`overriddenMovedHimmel` (the same, then `setLatitude(1)`) the override is on and
the himmel is dirty: with the override switched off `Himmel::getSunPosition()`
is still the zenith, and one update makes it (0, 1, 0), the computed sun position
for time 0 at latitude 1. -/
theorem C4_override_off_witness :
    (overriddenHimmel.astro.getOverrideSunPosition = true
      ∧ overriddenHimmel.isDirty = false
      ∧ overriddenHimmel.getTime = overriddenHimmel.m_lastTime
      ∧ ((overriddenHimmel.onAstro (fun a => (a.setOverrideSunPosition false).2)).update
          demoEnv 7).getSunPosition = zenith)
    ∧ (overriddenMovedHimmel.astro.getOverrideSunPosition = true
      ∧ overriddenMovedHimmel.isDirty = true
      ∧ (overriddenMovedHimmel.onAstro
          (fun a => (a.setOverrideSunPosition false).2)).getSunPosition = zenith
      ∧ ((overriddenMovedHimmel.onAstro
          (fun a => (a.setOverrideSunPosition false).2)).update demoEnv 7).getSunPosition
        = { x := 0, y := 1, z := 0 }
      ∧ ((overriddenMovedHimmel.onAstro
          (fun a => (a.setOverrideSunPosition false).2)).update demoEnv 7).getSunPosition
        ≠ zenith) := by
  obtain ⟨f1, f2, f3⟩ := overriddenHimmel_fields
  obtain ⟨c1, c2⟩ := overriddenHimmel_clock
  have hclean : overriddenHimmel.isDirty = false := f3
  have htime : overriddenHimmel.getTime = overriddenHimmel.m_lastTime := by
    show overriddenHimmel.m_timef = overriddenHimmel.m_lastTime
    rw [c1, c2]
  have hon : overriddenHimmel.astro.getOverrideSunPosition = true := by
    show overriddenHimmel.m_astronomy.m_overrideSunPosition = true
    rw [f2]; rfl
  have hstale := (C4_override_off_amended demoEnv demoAstronomy overriddenHimmel 7).2.2.2.2.1
    hclean htime
  have hsun : overriddenHimmel.getSunPosition = zenith := f1
  have hma : overriddenMovedHimmel.m_astronomy
      = ((overrideSun zenith demoAstronomy).setLatitude 1).2 := by
    show (overriddenHimmel.m_astronomy.setLatitude 1).2 = _
    rw [f2]
  have hmon : overriddenMovedHimmel.astro.getOverrideSunPosition = true := by
    show overriddenMovedHimmel.m_astronomy.m_overrideSunPosition = true
    rw [hma]; rfl
  have hmd : overriddenMovedHimmel.isDirty = true := rfl
  have hmsun : (overriddenMovedHimmel.onAstro
      (fun a => (a.setOverrideSunPosition false).2)).getSunPosition = zenith := by
    rw [(C4_override_off_amended demoEnv demoAstronomy overriddenMovedHimmel 7).2.2.1]
    exact f1
  have hfresh := (C4_override_off_amended demoEnv demoAstronomy overriddenMovedHimmel
    7).2.2.2.2.2 hmd
  have hval : demoEnv.sunPosition (demoEnv.fromTimeF overriddenMovedHimmel.getTime)
      overriddenMovedHimmel.getLatitude overriddenMovedHimmel.getLongitude
      = { x := 0, y := 1, z := 0 } := by
    have ht : overriddenMovedHimmel.getTime = 0 := c1
    have hlat : overriddenMovedHimmel.getLatitude = 1 := by
      show overriddenMovedHimmel.m_astronomy.getLatitude = 1
      rw [hma]
      norm_num [AbstractAstronomy.getLatitude, AbstractAstronomy.setLatitude, _clamp]
    rw [ht, hlat]
    norm_num [demoEnv, unitOf]
  refine ⟨⟨hon, hclean, htime, ?_⟩, ⟨hmon, hmd, hmsun, ?_, ?_⟩⟩
  · rw [hstale, hsun]
  · rw [hfresh, hval]
  · rw [hfresh, hval]
    simp [zenith]

/-! ## Dirty and clean -/

/-- C5. After `Himmel::setLatitude(x)` or `Himmel::setLongitude(x)`, for every x
and every himmel (whatever its clock reads), the himmel is dirty, and the next
`Himmel::update()` calls the astronomy's update with the clock's time, sets the
sun uniform to `astro()->getSunPosition()` and the time uniform to the clock's
reading, updates every present component (a star geode gets the new astronomy),
and leaves the himmel not dirty. -/
theorem C5_location_change_forces_recompute {T A : Type} [DecidableEq T] [DecidableEq A]
    (E : Env T A) (x r : ℚ) (h : Himmel T A) :
    ((h.setLatitude x).2.isDirty = true
      ∧ ((h.setLatitude x).2.update E r).astro
          = (h.setLatitude x).2.astro.update E (E.fromTimeF h.getTime)
      ∧ ((h.setLatitude x).2.update E r).u_sun
          = ((h.setLatitude x).2.update E r).astro.getSunPosition E
      ∧ ((h.setLatitude x).2.update E r).u_time = E.getf h.getTime
      ∧ ((h.setLatitude x).2.update E r).calls
          = h.calls ++ Call.astroUpdate (E.fromTimeF h.getTime) :: h.componentUpdates
      ∧ ((h.setLatitude x).2.update E r).m_stars
          = h.m_stars.map (StarsGeode.update E h.m_fovHint h.m_heightHint
              ((h.setLatitude x).2.update E r).astro)
      ∧ ((h.setLatitude x).2.update E r).isDirty = false)
    ∧ ((h.setLongitude x).2.isDirty = true
      ∧ ((h.setLongitude x).2.update E r).astro
          = (h.setLongitude x).2.astro.update E (E.fromTimeF h.getTime)
      ∧ ((h.setLongitude x).2.update E r).u_sun
          = ((h.setLongitude x).2.update E r).astro.getSunPosition E
      ∧ ((h.setLongitude x).2.update E r).u_time = E.getf h.getTime
      ∧ ((h.setLongitude x).2.update E r).calls
          = h.calls ++ Call.astroUpdate (E.fromTimeF h.getTime) :: h.componentUpdates
      ∧ ((h.setLongitude x).2.update E r).m_stars
          = h.m_stars.map (StarsGeode.update E h.m_fovHint h.m_heightHint
              ((h.setLongitude x).2.update E r).astro)
      ∧ ((h.setLongitude x).2.update E r).isDirty = false) := by
  constructor
  · have hd : (h.setLatitude x).2.m_dirty = true := rfl
    obtain ⟨f1, f2, f3, f4, f5, f6, _⟩ :=
      update_dirty_fields E r (h.setLatitude x).2 (Or.inl hd)
    refine ⟨rfl, f1, ?_, f3, f5, ?_, f4⟩
    · rw [f2]; unfold Himmel.astro; rw [f1]
    · rw [f6]; unfold Himmel.astro; rw [f1]; rfl
  · have hd : (h.setLongitude x).2.m_dirty = true := rfl
    obtain ⟨f1, f2, f3, f4, f5, f6, _⟩ :=
      update_dirty_fields E r (h.setLongitude x).2 (Or.inl hd)
    refine ⟨rfl, f1, ?_, f3, f5, ?_, f4⟩
    · rw [f2]; unfold Himmel.astro; rw [f1]
    · rw [f6]; unfold Himmel.astro; rw [f1]; rfl

theorem updated_sun {T A : Type} [DecidableEq T] [DecidableEq A] (E : Env T A)
    (r : ℚ) (h : Himmel T A) (hd : h.m_dirty = true ∨ h.m_timef ≠ h.m_lastTime) :
    (h.update E r).u_sun
      = if h.m_astronomy.m_overrideSunPosition then h.m_astronomy.m_sunPosition
        else E.sunPosition (E.fromTimeF h.m_timef) h.m_astronomy.m_latitude
          h.m_astronomy.m_longitude := by
  obtain ⟨_, f2, _⟩ := update_dirty_fields E r h hd
  obtain ⟨t1, t2, t3, t4, t5, _⟩ := astro_update_time E (E.fromTimeF h.m_timef) h.m_astronomy
  rw [f2]
  unfold AbstractAstronomy.getSunPosition
  rw [t1, t2, t3, t4, t5]

theorem demoHimmel_updated :
    (demoHimmel.update demoEnv 7).u_sun = { x := 1, y := 0, z := 0 }
    ∧ (demoHimmel.update demoEnv 7).m_astronomy = demoAstronomy := by
  obtain ⟨f1, _⟩ := update_dirty_fields demoEnv 7 demoHimmel (Or.inl demoHimmel_dirty)
  obtain ⟨ht, _, ha⟩ := demoHimmel_fields
  constructor
  · rw [updated_sun demoEnv 7 demoHimmel (Or.inl demoHimmel_dirty), ha, ht]
    simp [demoAstronomy, demoEnv, unitOf]
  · rw [f1, ha, ht]
    simp [AbstractAstronomy.update, demoAstronomy, demoEnv]

/-- C6 as stated fails. On the himmel `movedHimmel` (one update at latitude 0, then
`setLatitude(1)`, no update since) `Himmel::getSunPosition()` returns (1, 0, 0),
the direction cached for latitude 0, while the sun direction for the current time
and the new location is (0, 1, 0); and after the query the himmel is still
dirty. -/
theorem C6_counterexample :
    (Himmel.ask demoEnv Query.sunPosition movedHimmel).1
        = Answer.vec { x := 1, y := 0, z := 0 }
    ∧ movedHimmel.getLatitude = 1
    ∧ movedHimmel.astro.getSunPosition demoEnv = { x := 0, y := 1, z := 0 }
    ∧ (Himmel.ask demoEnv Query.sunPosition movedHimmel).1
        ≠ Answer.vec (movedHimmel.astro.getSunPosition demoEnv)
    ∧ (Himmel.ask demoEnv Query.sunPosition movedHimmel).2.isDirty = true := by
  obtain ⟨f1, f2⟩ := demoHimmel_updated
  have h1 : (Himmel.ask demoEnv Query.sunPosition movedHimmel).1
      = Answer.vec { x := 1, y := 0, z := 0 } := by
    show Answer.vec (demoHimmel.update demoEnv 7).u_sun = _
    rw [f1]
  have ha : movedHimmel.astro = (demoAstronomy.setLatitude 1).2 := by
    show ((demoHimmel.update demoEnv 7).m_astronomy.setLatitude 1).2 = _
    rw [f2]
  have h3 : movedHimmel.astro.getSunPosition demoEnv = { x := 0, y := 1, z := 0 } := by
    rw [ha]
    norm_num [AbstractAstronomy.getSunPosition, AbstractAstronomy.setLatitude,
      demoAstronomy, demoEnv, unitOf, _clamp]
  refine ⟨h1, ?_, h3, ?_, rfl⟩
  · show movedHimmel.astro.getLatitude = 1
    rw [ha]
    norm_num [AbstractAstronomy.getLatitude, AbstractAstronomy.setLatitude, _clamp]
  · rw [h1, h3]
    simp

/-- C6, amended. `Himmel::getSunPosition()` never recomputes: called after
`setLatitude`, `setLongitude` or a movement of the clock and before any update, it
returns the sun uniform cached by the last update and changes nothing, so a dirty
himmel stays dirty. The recomputation is made by the next `Himmel::update()`:
after it `Himmel::getSunPosition()` is the override vector when the sun is
overridden and otherwise the computed sun direction for the clock's time and the
new (clamped or wrapped) location, and the himmel is no longer dirty. -/
theorem C6_query_reads_cache_amended {T A : Type} [DecidableEq T] [DecidableEq A]
    (E : Env T A) (x r : ℚ) (t : T) (h : Himmel T A) :
    (Himmel.ask E Query.sunPosition (h.setLatitude x).2
        = (Answer.vec h.getSunPosition, (h.setLatitude x).2)
      ∧ (Himmel.ask E Query.sunPosition (h.setLatitude x).2).2.isDirty = true
      ∧ ((h.setLatitude x).2.update E r).getSunPosition
          = (if h.astro.getOverrideSunPosition then h.astro.m_sunPosition
             else E.sunPosition (E.fromTimeF h.getTime) (_clamp (-90) 90 x) h.getLongitude)
      ∧ ((h.setLatitude x).2.update E r).isDirty = false)
    ∧ (Himmel.ask E Query.sunPosition (h.setLongitude x).2
        = (Answer.vec h.getSunPosition, (h.setLongitude x).2)
      ∧ (Himmel.ask E Query.sunPosition (h.setLongitude x).2).2.isDirty = true
      ∧ ((h.setLongitude x).2.update E r).getSunPosition
          = (if h.astro.getOverrideSunPosition then h.astro.m_sunPosition
             else E.sunPosition (E.fromTimeF h.getTime) h.getLatitude (wrapLongitude x))
      ∧ ((h.setLongitude x).2.update E r).isDirty = false)
    ∧ (Himmel.ask E Query.sunPosition (h.advanceClock t)
        = (Answer.vec h.getSunPosition, h.advanceClock t)
      ∧ (Himmel.ask E Query.sunPosition (h.advanceClock t)).2.isDirty = h.isDirty
      ∧ (t ≠ h.m_lastTime →
          ((h.advanceClock t).update E r).getSunPosition
            = (if h.astro.getOverrideSunPosition then h.astro.m_sunPosition
               else E.sunPosition (E.fromTimeF t) h.getLatitude h.getLongitude))
      ∧ ((h.advanceClock t).update E r).isDirty = false) := by
  refine ⟨⟨rfl, rfl, ?_, update_not_dirty E r _⟩, ⟨rfl, rfl, ?_, update_not_dirty E r _⟩,
    ⟨rfl, rfl, ?_, update_not_dirty E r _⟩⟩
  · exact updated_sun E r (h.setLatitude x).2 (Or.inl rfl)
  · exact updated_sun E r (h.setLongitude x).2 (Or.inl rfl)
  · intro ht
    exact updated_sun E r (h.advanceClock t) (Or.inr ht)

/-- C6, amended, at a concrete himmel: the clock of the demo himmel, last seen at
0, moves to 1, and the next update makes `Himmel::getSunPosition()` the computed
sun direction for time 1. -/
theorem C6_query_reads_cache_witness :
    (1 : ℚ) ≠ demoHimmel.m_lastTime
    ∧ ((demoHimmel.advanceClock 1).update demoEnv 7).getSunPosition
        = (if demoHimmel.astro.getOverrideSunPosition then demoHimmel.astro.m_sunPosition
           else demoEnv.sunPosition (demoEnv.fromTimeF 1) demoHimmel.getLatitude
             demoHimmel.getLongitude) := by
  have ht : (1 : ℚ) ≠ demoHimmel.m_lastTime := by
    rw [demoHimmel_fields.2.1]
    norm_num
  exact ⟨ht, (C6_query_reads_cache_amended demoEnv 0 7 1 demoHimmel).2.2.2.2.1 ht⟩

theorem step_clean_matches {T A : Type} [DecidableEq T] [DecidableEq A] (E : Env T A)
    (h : Himmel T A) (op : Op T)
    (inv : h.m_dirty = false → h.u_sun = h.m_astronomy.getSunPosition E) :
    (h.step E op).m_dirty = false
      → (h.step E op).u_sun = (h.step E op).m_astronomy.getSunPosition E := by
  cases op with
  | setLatitude x => intro hc; exact absurd hc (by simp [Himmel.step, Himmel.setLatitude,
      AbstractHimmel.dirty])
  | setLongitude x => intro hc; exact absurd hc (by simp [Himmel.step, Himmel.setLongitude,
      AbstractHimmel.dirty])
  | setAltitude x => exact inv
  | advanceClock t => exact inv
  | update r =>
    have hs : h.step E (Op.update r) = h.update E r := rfl
    rw [hs]
    intro _
    by_cases hd : h.m_dirty = true ∨ h.m_timef ≠ h.m_lastTime
    · obtain ⟨f1, f2, _⟩ := update_dirty_fields E r h hd
      rw [f1, f2]
    · push_neg at hd
      have hc : h.m_dirty = false := by simpa using hd.1
      rw [update_clean E r h hc hd.2]
      exact inv hc

theorem run_clean_matches {T A : Type} [DecidableEq T] [DecidableEq A] (E : Env T A)
    (ops : List (Op T)) (h : Himmel T A)
    (inv : h.m_dirty = false → h.u_sun = h.m_astronomy.getSunPosition E) :
    (h.run E ops).m_dirty = false
      → (h.run E ops).u_sun = (h.run E ops).m_astronomy.getSunPosition E := by
  induction ops generalizing h with
  | nil => exact inv
  | cons op ops ih => exact ih (h.step E op) (step_clean_matches E h op inv)

/-- C7. In every state reached from a constructed himmel (any components, any
astronomy, any clock) by any sequence of `setLatitude`, `setLongitude`,
`setAltitude`, `update` and movements of the clock: if the himmel is not dirty,
then `Himmel::getSunPosition()` equals `astro()->getSunPosition()`, the
astronomy's sun position for its current time, latitude and longitude; and after
one more `Himmel::update()` the himmel is not dirty. -/
theorem C7_clean_matches_snapshot {T A : Type} [DecidableEq T] [DecidableEq A]
    (E : Env T A) (timef : T) (fovHint heightHint : ℚ) (milkyWay moon : Bool)
    (stars : Option StarsGeode) (atmosphere highLayer : Bool)
    (astronomy : AbstractAstronomy A) (ops : List (Op T)) (r : ℚ) :
    (((Himmel.new E (AbstractHimmel.new timef fovHint heightHint) milkyWay moon stars
          atmosphere highLayer astronomy).run E ops).isDirty = false
      → ((Himmel.new E (AbstractHimmel.new timef fovHint heightHint) milkyWay moon stars
          atmosphere highLayer astronomy).run E ops).getSunPosition
        = ((Himmel.new E (AbstractHimmel.new timef fovHint heightHint) milkyWay moon stars
          atmosphere highLayer astronomy).run E ops).astro.getSunPosition E)
    ∧ (((Himmel.new E (AbstractHimmel.new timef fovHint heightHint) milkyWay moon stars
          atmosphere highLayer astronomy).run E ops).update E r).isDirty = false := by
  refine ⟨?_, update_not_dirty E r _⟩
  apply run_clean_matches E ops
  intro hc
  rw [(create_dirty E _ milkyWay moon stars atmosphere highLayer astronomy).1] at hc
  exact absurd hc (by simp [AbstractHimmel.new])

/-- C7 at a concrete reachable state: the demo himmel after a change of latitude
and one update is not dirty, and its cached sun vector is the astronomy's. -/
theorem C7_clean_matches_witness :
    (demoHimmel.run demoEnv [Op.setLatitude 1, Op.update 7]).isDirty = false
    ∧ (demoHimmel.run demoEnv [Op.setLatitude 1, Op.update 7]).getSunPosition
      = (demoHimmel.run demoEnv [Op.setLatitude 1, Op.update 7]).astro.getSunPosition
          demoEnv := by
  have hc : (demoHimmel.run demoEnv [Op.setLatitude 1, Op.update 7]).isDirty = false := by
    have e : demoHimmel.run demoEnv [Op.setLatitude 1, Op.update 7]
        = (demoHimmel.setLatitude 1).2.update demoEnv 7 := by
      simp [Himmel.run, Himmel.step]
    rw [e]
    exact update_not_dirty demoEnv 7 _
  exact ⟨hc, (C7_clean_matches_snapshot demoEnv 0 45 600 true true (some demoStars) true true
      demoAstronomy [Op.setLatitude 1, Op.update 7] 7).1 hc⟩

theorem updates_clean {T A : Type} [DecidableEq T] [DecidableEq A] (E : Env T A)
    (rs : List ℚ) (h : Himmel T A)
    (hd : h.m_dirty = false) (ht : h.m_timef = h.m_lastTime) :
    (rs.foldl (fun g r => g.update E r) h).toAbstractHimmel = h.toAbstractHimmel
    ∧ (rs.foldl (fun g r => g.update E r) h).m_astronomy = h.m_astronomy
    ∧ (rs.foldl (fun g r => g.update E r) h).u_sun = h.u_sun
    ∧ (rs.foldl (fun g r => g.update E r) h).u_time = h.u_time
    ∧ (rs.foldl (fun g r => g.update E r) h).m_stars = h.m_stars
    ∧ (rs.foldl (fun g r => g.update E r) h).calls = h.calls := by
  induction rs generalizing h with
  | nil => exact ⟨rfl, rfl, rfl, rfl, rfl, rfl⟩
  | cons r rs ih =>
    have hu := update_clean E r h hd ht
    have ih1 := ih (h.update E r) (by rw [hu]; exact hd) (by rw [hu]; exact ht)
    rw [List.foldl_cons]
    rw [hu] at ih1 ⊢
    exact ih1

/-- C8. When the himmel is not dirty and its clock reads what the last update saw,
`Himmel::update()` does not call the astronomy's update and updates no component
(no call is recorded, the astronomy and the star geode are as before), and it
leaves the sun uniform and the time uniform unchanged; so after any number of
such updates `Himmel::getSunPosition()` returns the same cached sun position. -/
theorem C8_no_redundant_recomputation {T A : Type} [DecidableEq T] [DecidableEq A]
    (E : Env T A) (r : ℚ) (rs : List ℚ) (h : Himmel T A)
    (hd : h.isDirty = false) (ht : h.getTime = h.m_lastTime) :
    (h.update E r).calls = h.calls
    ∧ (h.update E r).astro = h.astro
    ∧ (h.update E r).m_stars = h.m_stars
    ∧ (h.update E r).u_sun = h.u_sun
    ∧ (h.update E r).u_time = h.u_time
    ∧ (h.update E r).isDirty = false
    ∧ (rs.foldl (fun g r => g.update E r) h).getSunPosition = h.getSunPosition
    ∧ (rs.foldl (fun g r => g.update E r) h).calls = h.calls
    ∧ (rs.foldl (fun g r => g.update E r) h).astro = h.astro := by
  have hu := update_clean E r h hd ht
  obtain ⟨_, g2, g3, _, _, g6⟩ := updates_clean E rs h hd ht
  rw [hu]
  exact ⟨rfl, rfl, rfl, rfl, rfl, hd, g3, g6, g2⟩

theorem update_lastTime {T A : Type} [DecidableEq T] [DecidableEq A] (E : Env T A)
    (r : ℚ) (h : Himmel T A) : (h.update E r).m_timef = (h.update E r).m_lastTime := by
  by_cases hd : h.m_dirty = true ∨ h.m_timef ≠ h.m_lastTime
  · obtain ⟨_, _, _, _, _, _, f7, f8⟩ := update_dirty_fields E r h hd
    rw [f7, f8]
  · push_neg at hd
    rw [update_clean E r h (by simpa using hd.1) hd.2]
    exact hd.2

/-- C8 at a concrete himmel: the demo himmel after one update is not dirty and its
clock has not moved; three more updates record no call and leave the cached sun
position. -/
theorem C8_no_redundant_witness :
    (demoHimmel.update demoEnv 7).isDirty = false
    ∧ (demoHimmel.update demoEnv 7).getTime = (demoHimmel.update demoEnv 7).m_lastTime
    ∧ ((demoHimmel.update demoEnv 7).update demoEnv 8).calls
        = (demoHimmel.update demoEnv 7).calls
    ∧ ([8, 9, 10].foldl (fun g r => g.update demoEnv r)
          (demoHimmel.update demoEnv 7)).getSunPosition
        = (demoHimmel.update demoEnv 7).getSunPosition :=
  ⟨update_not_dirty demoEnv 7 demoHimmel, update_lastTime demoEnv 7 demoHimmel,
    (C8_no_redundant_recomputation demoEnv 8 [8, 9, 10] (demoHimmel.update demoEnv 7)
      (update_not_dirty demoEnv 7 demoHimmel) (update_lastTime demoEnv 7 demoHimmel)).1,
    (C8_no_redundant_recomputation demoEnv 8 [8, 9, 10] (demoHimmel.update demoEnv 7)
      (update_not_dirty demoEnv 7 demoHimmel)
      (update_lastTime demoEnv 7 demoHimmel)).2.2.2.2.2.2.1⟩

/-! ## Queries -/

/-- C10. For every time aTime, `Himmel::getSunPosition(aTime)` returns
`astro()->getSunPosition(aTime, getLatitude(), getLongitude())`: the astronomy's
query at the time passed in and at the stored location, which after
`setLatitude(x)` is the clamped x and after `setLongitude(x)` the wrapped x; and
the call leaves the whole himmel (time, location, dirty flag, uniforms) as it
was. -/
theorem C10_getSunPosition_at_time {T A : Type} (E : Env T A) (aTime : A) (x : ℚ)
    (h : Himmel T A) :
    h.getSunPositionAt E aTime
        = E.getSunPositionAt h.astro aTime h.getLatitude h.getLongitude
    ∧ h.ask E (Query.sunPositionAt aTime)
        = (Answer.vec (E.getSunPositionAt h.astro aTime h.getLatitude h.getLongitude), h)
    ∧ (h.setLatitude x).2.getSunPositionAt E aTime
        = E.getSunPositionAt (h.setLatitude x).2.astro aTime (_clamp (-90) 90 x)
            h.getLongitude
    ∧ (h.setLongitude x).2.getSunPositionAt E aTime
        = E.getSunPositionAt (h.setLongitude x).2.astro aTime h.getLatitude
            (wrapLongitude x) :=
  ⟨rfl, rfl, rfl, rfl⟩

/-! ## Stars -/

/-- C11. When `Himmel::update()` finds the himmel dirty (or its clock moved) and
there is a star geode, the astronomy's update, to the clock's time, is called
before the star geode's update; afterwards the star geode's rotation uniform R is
`astro()->equToLocalHorizonMatrix()` and its sun uniform is
`astro()->getSunPosition()` of that updated astronomy, which is the sun vector
`Himmel::getSunPosition()` then returns. -/
theorem C11_stars_follow_astronomy {T A : Type} [DecidableEq T] [DecidableEq A]
    (E : Env T A) (r : ℚ) (h : Himmel T A) (s : StarsGeode)
    (hd : h.isDirty = true ∨ h.getTime ≠ h.m_lastTime) (hs : h.m_stars = some s) :
    (h.update E r).astro.m_aTime = E.fromTimeF h.getTime
    ∧ (h.update E r).m_stars
        = some (s.update E h.m_fovHint h.m_heightHint (h.update E r).astro)
    ∧ (s.update E h.m_fovHint h.m_heightHint (h.update E r).astro).u_R
        = E.equToLocalHorizonMatrix (h.update E r).astro
    ∧ (s.update E h.m_fovHint h.m_heightHint (h.update E r).astro).u_sun
        = (h.update E r).astro.getSunPosition E
    ∧ (s.update E h.m_fovHint h.m_heightHint (h.update E r).astro).u_sun
        = (h.update E r).getSunPosition
    ∧ (h.update E r).calls
        = h.calls ++ Call.astroUpdate (E.fromTimeF h.getTime)
            :: ((if h.m_milkyway then [Call.milkywayUpdate] else [])
                ++ (if h.m_moon then [Call.moonUpdate] else []))
            ++ Call.starsUpdate
            :: ((if h.m_atmosphere then [Call.atmosphereUpdate] else [])
                ++ (if h.m_highLayer then [Call.highLayerUpdate] else [])) := by
  obtain ⟨f1, f2, _, _, f5, f6, _, _⟩ := update_dirty_fields E r h hd
  have ha : (h.update E r).astro = h.m_astronomy.update E (E.fromTimeF h.m_timef) := f1
  refine ⟨?_, ?_, rfl, rfl, ?_, ?_⟩
  · rw [ha]
    exact (astro_update_time E _ _).1
  · rw [f6, hs, ha]
    rfl
  · show _ = (h.update E r).u_sun
    rw [f2, ha]
    rfl
  · rw [f5]
    simp [Himmel.componentUpdates, hs, Himmel.getTime]

/-- C11 at a concrete himmel: the demo himmel is dirty after construction and has a
star geode; after one update the star geode holds the astronomy's matrix and the
sun vector the himmel returns. -/
theorem C11_stars_follow_witness :
    demoHimmel.m_stars = some demoStars
    ∧ (demoHimmel.update demoEnv 7).m_stars
        = some (demoStars.update demoEnv demoHimmel.m_fovHint demoHimmel.m_heightHint
            (demoHimmel.update demoEnv 7).astro)
    ∧ (demoStars.update demoEnv demoHimmel.m_fovHint demoHimmel.m_heightHint
          (demoHimmel.update demoEnv 7).astro).u_sun
        = (demoHimmel.update demoEnv 7).getSunPosition :=
  ⟨rfl,
    (C11_stars_follow_astronomy demoEnv 7 demoHimmel demoStars (Or.inl demoHimmel_dirty)
      rfl).2.1,
    (C11_stars_follow_astronomy demoEnv 7 demoHimmel demoStars (Or.inl demoHimmel_dirty)
      rfl).2.2.2.2.1⟩

/-! ## Altitude -/

/-- C12. Provided the constant `earth_atmosphereThicknessNonUniform()` is at least
0.001: for every altitude a, `Himmel::setAltitude(a)` returns a value between
0.001 and the thickness, which is a when 0.001 <= a <= thickness, 0.001 when a is
smaller and the thickness when a is larger; `getAltitude()` returns that value
afterwards; component 0 of the common uniform holds it and nothing else of the
himmel changes; and `setAltitude` with the returned value changes nothing. -/
theorem C12_setAltitude_clamps {T A : Type} (E : Env T A) (a : ℚ) (h : Himmel T A)
    (hthick : 1 / 1000 ≤ E.earth_atmosphereThicknessNonUniform) :
    (1 / 1000 ≤ (h.setAltitude E a).1
      ∧ (h.setAltitude E a).1 ≤ E.earth_atmosphereThicknessNonUniform)
    ∧ (1 / 1000 ≤ a ∧ a ≤ E.earth_atmosphereThicknessNonUniform
        → (h.setAltitude E a).1 = a)
    ∧ (a < 1 / 1000 → (h.setAltitude E a).1 = 1 / 1000)
    ∧ (E.earth_atmosphereThicknessNonUniform < a
        → (h.setAltitude E a).1 = E.earth_atmosphereThicknessNonUniform)
    ∧ (h.setAltitude E a).2.getAltitude = (h.setAltitude E a).1
    ∧ (h.setAltitude E a).2
        = { h with u_common := { h.u_common with c0 := (h.setAltitude E a).1 } }
    ∧ (h.setAltitude E a).2.setAltitude E (h.setAltitude E a).1 = h.setAltitude E a := by
  have hv : (h.setAltitude E a).1
      = _clamp (1 / 1000) E.earth_atmosphereThicknessNonUniform a := rfl
  have hr := clamp_range (1 / 1000) E.earth_atmosphereThicknessNonUniform a hthick
  refine ⟨?_, ?_, ?_, ?_, rfl, rfl, ?_⟩
  · rw [hv]; exact hr
  · rintro ⟨h1, h2⟩
    rw [hv]; unfold _clamp
    rw [if_neg (not_lt.mpr h1), if_neg (not_lt.mpr h2)]
  · intro h1
    rw [hv]; unfold _clamp
    rw [if_pos h1]
  · intro h1
    rw [hv]; unfold _clamp
    rw [if_neg (not_lt.mpr (le_trans hthick (le_of_lt h1))), if_pos h1]
  · have hi : _clamp (1 / 1000) E.earth_atmosphereThicknessNonUniform
        (_clamp (1 / 1000) E.earth_atmosphereThicknessNonUniform a)
        = _clamp (1 / 1000) E.earth_atmosphereThicknessNonUniform a := by
      generalize _clamp (1 / 1000) E.earth_atmosphereThicknessNonUniform a = c at hr
      unfold _clamp
      rw [if_neg (not_lt.mpr hr.1), if_neg (not_lt.mpr hr.2)]
    simp only [Himmel.setAltitude, Himmel.getAltitude, hi]

/-- C12 at a concrete environment, where the thickness is 85: an altitude of 100
is stored as 85. -/
theorem C12_setAltitude_witness :
    (1 : ℚ) / 1000 ≤ demoEnv.earth_atmosphereThicknessNonUniform
    ∧ (demoHimmel.setAltitude demoEnv 100).1 = 85 := by
  have ht : (1 : ℚ) / 1000 ≤ demoEnv.earth_atmosphereThicknessNonUniform := by
    norm_num [demoEnv]
  refine ⟨ht, ?_⟩
  have h := (C12_setAltitude_clamps demoEnv 100 demoHimmel ht).2.2.2.1
    (by norm_num [demoEnv])
  rw [h]
  rfl

/-! ## The constructed himmel -/

theorem step_common {T A : Type} [DecidableEq T] [DecidableEq A] (E : Env T A)
    (h : Himmel T A) (op : Op T) :
    (h.step E op).u_common.c1 = h.u_common.c1
    ∧ (h.step E op).u_common.c2 = h.u_common.c2 := by
  cases op with
  | setLatitude x => exact ⟨rfl, rfl⟩
  | setLongitude x => exact ⟨rfl, rfl⟩
  | setAltitude x => exact ⟨rfl, rfl⟩
  | advanceClock t => exact ⟨rfl, rfl⟩
  | update r =>
    have hs : h.step E (Op.update r) = h.update E r := rfl
    rw [hs]
    by_cases hd : h.m_dirty = true ∨ h.m_timef ≠ h.m_lastTime
    · obtain ⟨b, _, _, _, _, hu⟩ := update_dirty E r h hd
      rw [hu, (recompute_fields E _).2.2.2.2.2.2.1]
      exact ⟨rfl, rfl⟩
    · push_neg at hd
      rw [update_clean E r h (by simpa using hd.1) hd.2]
      exact ⟨rfl, rfl⟩

theorem run_common {T A : Type} [DecidableEq T] [DecidableEq A] (E : Env T A)
    (ops : List (Op T)) (h : Himmel T A) :
    (h.run E ops).u_common.c1 = h.u_common.c1
    ∧ (h.run E ops).u_common.c2 = h.u_common.c2 := by
  induction ops generalizing h with
  | nil => exact ⟨rfl, rfl⟩
  | cons op ops ih =>
    obtain ⟨i1, i2⟩ := ih (h.step E op)
    obtain ⟨s1, s2⟩ := step_common E h op
    exact ⟨i1.trans s1, i2.trans s2⟩

theorem new_fields {T A : Type} (E : Env T A) (base : AbstractHimmel T)
    (milkyWay moon : Bool) (stars : Option StarsGeode) (atmosphere highLayer : Bool)
    (astronomy : AbstractAstronomy A) :
    (Himmel.new E base milkyWay moon stars atmosphere highLayer astronomy).children
      = base.children ++ Node.antiCull
          :: Himmel.componentNodes milkyWay moon stars.isSome atmosphere highLayer
    ∧ (Himmel.new E base milkyWay moon stars atmosphere highLayer astronomy).renderBins
      = base.renderBins
          ++ (Himmel.componentNodes milkyWay moon stars.isSome atmosphere highLayer).zip
            ((List.range (Himmel.componentNodes milkyWay moon stars.isSome atmosphere
              highLayer).length).map Int.ofNat)
    ∧ (Himmel.new E base milkyWay moon stars atmosphere highLayer astronomy).u_common
      = Himmel.cmnUniform E := by
  cases milkyWay <;> cases moon <;> cases stars <;> cases atmosphere <;> cases highLayer <;>
    simp [Himmel.new, Himmel.addComponent, Himmel.addAntiCull, AbstractHimmel.addChild,
      AbstractHimmel.setRenderBinDetails, Himmel.componentNodes, List.range_succ]

/-- C16, what the code does. On every constructed himmel the common uniform is
the vector `Himmel::cmnUniform` builds: component 0 is `defaultAltitude()` = 0.2,
which `getAltitude()` returns; component 1 is `earth_meanRadius()`, not an angular
radius; component 2 is `earth_meanRadius()` plus the non-uniform atmosphere
thickness; component 3 is 0. No operation of the himmel rewrites components 1
and 2. -/
theorem C16_cmnUniform_components {T A : Type} [DecidableEq T] [DecidableEq A]
    (E : Env T A) (base : AbstractHimmel T) (milkyWay moon : Bool)
    (stars : Option StarsGeode) (atmosphere highLayer : Bool)
    (astronomy : AbstractAstronomy A) (ops : List (Op T)) :
    (Himmel.new E base milkyWay moon stars atmosphere highLayer astronomy).u_common
      = { c0 := 2 / 10, c1 := E.earth_meanRadius,
          c2 := E.earth_meanRadius + E.earth_atmosphereThicknessNonUniform, c3 := 0 }
    ∧ (Himmel.new E base milkyWay moon stars atmosphere highLayer astronomy).getAltitude
      = Himmel.defaultAltitude
    ∧ Himmel.defaultAltitude = 2 / 10
    ∧ ((Himmel.new E base milkyWay moon stars atmosphere highLayer astronomy).run E
        ops).u_common.c1 = E.earth_meanRadius
    ∧ ((Himmel.new E base milkyWay moon stars atmosphere highLayer astronomy).run E
        ops).u_common.c2 = E.earth_meanRadius + E.earth_atmosphereThicknessNonUniform := by
  have hu := (new_fields E base milkyWay moon stars atmosphere highLayer astronomy).2.2
  obtain ⟨r1, r2⟩ := run_common E ops
    (Himmel.new E base milkyWay moon stars atmosphere highLayer astronomy)
  refine ⟨?_, ?_, rfl, ?_, ?_⟩
  · rw [hu]; rfl
  · unfold Himmel.getAltitude; rw [hu]; rfl
  · rw [r1, hu]; rfl
  · rw [r2, hu]; rfl

/-- C17. For every combination of present and absent components, the children of
a constructed himmel are the anti-cull geode followed by the present components
in the order milky way, stars, moon, atmosphere, high cloud layer: the
anti-cull geode is the first child and is none of the later ones. Whatever the
base class already holds, the anti-cull geode is added before every component. -/
theorem C17_antiCull_first {T A : Type} (E : Env T A) (timef : T) (fovHint heightHint : ℚ)
    (base : AbstractHimmel T) (milkyWay moon : Bool) (stars : Option StarsGeode)
    (atmosphere highLayer : Bool) (astronomy : AbstractAstronomy A) :
    (Himmel.new E (AbstractHimmel.new timef fovHint heightHint) milkyWay moon stars
        atmosphere highLayer astronomy).children
      = Node.antiCull
          :: Himmel.componentNodes milkyWay moon stars.isSome atmosphere highLayer
    ∧ (Himmel.new E (AbstractHimmel.new timef fovHint heightHint) milkyWay moon stars
        atmosphere highLayer astronomy).children.head? = some Node.antiCull
    ∧ Node.antiCull ∉ Himmel.componentNodes milkyWay moon stars.isSome atmosphere highLayer
    ∧ (Himmel.new E base milkyWay moon stars atmosphere highLayer astronomy).children
      = base.children ++ Node.antiCull
          :: Himmel.componentNodes milkyWay moon stars.isSome atmosphere highLayer := by
  have h1 := (new_fields E (AbstractHimmel.new timef fovHint heightHint) milkyWay moon stars
    atmosphere highLayer astronomy).1
  have h2 := (new_fields E base milkyWay moon stars atmosphere highLayer astronomy).1
  have h3 : (AbstractHimmel.new timef fovHint heightHint).children = [] := rfl
  rw [h3, List.nil_append] at h1
  refine ⟨h1, ?_, ?_, h2⟩
  · rw [h1]; rfl
  · cases milkyWay <;> cases moon <;> cases stars <;> cases atmosphere <;>
      cases highLayer <;> simp [Himmel.componentNodes]

/-- C18. For every combination of present and absent components, the render bins
the constructor assigns go to exactly the present components, in the order milky
way, stars, moon, atmosphere, high cloud layer, and are the numbers 0, 1, ...,
k - 1 in that order for k present components: strictly increasing, hence
distinct, and an absent component gets none. -/
theorem C18_render_bins_consecutive {T A : Type} (E : Env T A) (timef : T)
    (fovHint heightHint : ℚ) (milkyWay moon : Bool) (stars : Option StarsGeode)
    (atmosphere highLayer : Bool) (astronomy : AbstractAstronomy A) :
    ((Himmel.new E (AbstractHimmel.new timef fovHint heightHint) milkyWay moon stars
        atmosphere highLayer astronomy).renderBins.map Prod.fst
      = Himmel.componentNodes milkyWay moon stars.isSome atmosphere highLayer)
    ∧ ((Himmel.new E (AbstractHimmel.new timef fovHint heightHint) milkyWay moon stars
        atmosphere highLayer astronomy).renderBins.map Prod.snd
      = (List.range (Himmel.componentNodes milkyWay moon stars.isSome atmosphere
          highLayer).length).map Int.ofNat)
    ∧ ((Himmel.new E (AbstractHimmel.new timef fovHint heightHint) milkyWay moon stars
        atmosphere highLayer astronomy).renderBins.map Prod.snd).Pairwise (fun a b => a < b)
    ∧ ((Himmel.new E (AbstractHimmel.new timef fovHint heightHint) milkyWay moon stars
        atmosphere highLayer astronomy).renderBins.map Prod.snd).Nodup
    ∧ (Himmel.new E (AbstractHimmel.new timef fovHint heightHint) true true
        (some demoStars) true true astronomy).renderBins
      = [(Node.milkyway, 0), (Node.stars, 1), (Node.moon, 2), (Node.atmosphere, 3),
          (Node.highLayer, 4)]
    ∧ (Himmel.new E (AbstractHimmel.new timef fovHint heightHint) false true
        none true false astronomy).renderBins
      = [(Node.moon, 0), (Node.atmosphere, 1)] := by
  have h1 := (new_fields E (AbstractHimmel.new timef fovHint heightHint) milkyWay moon stars
    atmosphere highLayer astronomy).2.1
  have h3 : (AbstractHimmel.new timef fovHint heightHint).renderBins = [] := rfl
  rw [h3, List.nil_append] at h1
  refine ⟨?_, ?_, ?_, ?_, ?_, ?_⟩
  · rw [h1]
    cases milkyWay <;> cases moon <;> cases stars <;> cases atmosphere <;>
      cases highLayer <;> rfl
  · rw [h1]
    cases milkyWay <;> cases moon <;> cases stars <;> cases atmosphere <;>
      cases highLayer <;> rfl
  · rw [h1]
    generalize stars.isSome = st
    cases milkyWay <;> cases moon <;> cases st <;> cases atmosphere <;>
      cases highLayer <;> decide
  · rw [h1]
    generalize stars.isSome = st
    cases milkyWay <;> cases moon <;> cases st <;> cases atmosphere <;>
      cases highLayer <;> decide
  · rw [(new_fields E (AbstractHimmel.new timef fovHint heightHint) true true
      (some demoStars) true true astronomy).2.1]
    rfl
  · rw [(new_fields E (AbstractHimmel.new timef fovHint heightHint) false true
      none true false astronomy).2.1]
    rfl

/-! ## The textured demo: keys -/

/-- C13, what the code does. In `KeyboardEventHandler::handle` the key '-' sets
the seconds per cycle to the current value plus 1, and the key '+' sets it to the
current value minus 1 when that is positive and does nothing otherwise. With the
clock at 60 seconds per cycle, '+' gives 59 and '-' gives 61: the opposite of the
usage line "Use [+] and [-] to increase/decrease seconds per cycle". -/
theorem C13_plus_decreases_minus_increases {C : Type} (M : TimeFMethods C) (s : Demo C) :
    (Demo.handle M (Event.KEYDOWN '-'.toNat) s).2
      = { s with g_timef :=
            M.setSecondsPerCycle (M.getSecondsPerCycle s.g_timef + 1) s.g_timef }
    ∧ (Demo.handle M (Event.KEYDOWN '+'.toNat) s).2
      = (if M.getSecondsPerCycle s.g_timef - 1 > 0 then
          { s with g_timef :=
              M.setSecondsPerCycle (M.getSecondsPerCycle s.g_timef - 1) s.g_timef }
         else s)
    ∧ demoClockMethods.getSecondsPerCycle demoGlobals.g_timef = 60
    ∧ demoClockMethods.getSecondsPerCycle
        (Demo.handle demoClockMethods (Event.KEYDOWN '+'.toNat) demoGlobals).2.g_timef = 59
    ∧ demoClockMethods.getSecondsPerCycle
        (Demo.handle demoClockMethods (Event.KEYDOWN '-'.toNat) demoGlobals).2.g_timef
        = 61 := by
  have hm : ∀ (C1 : Type) (M1 : TimeFMethods C1) (s1 : Demo C1),
      (Demo.handle M1 (Event.KEYDOWN '-'.toNat) s1).2
      = { s1 with g_timef :=
            M1.setSecondsPerCycle (M1.getSecondsPerCycle s1.g_timef + 1) s1.g_timef } := by
    intro C1 M1 s1
    simp [Demo.handle, Demo.keyDown, Demo.KEY_Space]
  have hp : ∀ (C1 : Type) (M1 : TimeFMethods C1) (s1 : Demo C1),
      (Demo.handle M1 (Event.KEYDOWN '+'.toNat) s1).2
      = (if M1.getSecondsPerCycle s1.g_timef - 1 > 0 then
          { s1 with g_timef :=
              M1.setSecondsPerCycle (M1.getSecondsPerCycle s1.g_timef - 1) s1.g_timef }
         else s1) := by
    intro C1 M1 s1
    simp [Demo.handle, Demo.keyDown, Demo.KEY_Space]
  have h60 : demoClockMethods.getSecondsPerCycle demoGlobals.g_timef = 60 := rfl
  refine ⟨hm C M s, hp C M s, h60, ?_, ?_⟩
  · rw [hp, h60]
    norm_num
    rfl
  · rw [hm, h60]
    norm_num
    rfl

theorem activateDemo_fields {C : Type} (demo : e_Demo) (s : Demo C) :
    (Demo.activateDemo demo s).g_demo = s.g_demo
    ∧ (Demo.activateDemo demo s).g_timef = s.g_timef
    ∧ (Demo.activateDemo demo s).g_fov = s.g_fov
    ∧ (Demo.activateDemo demo s).cameraFov = s.cameraFov
    ∧ (∀ d : e_Demo, (Demo.activateDemo demo s).nodeMask d = if d = demo then 1 else 0) := by
  refine ⟨rfl, rfl, rfl, rfl, ?_⟩
  intro d
  cases d <;> cases demo <;> simp [Demo.activateDemo, Demo.setNodeMask]

theorem space_fields {C : Type} (M : TimeFMethods C) (s : Demo C) :
    (Demo.handle M (Event.KEYDOWN Demo.KEY_Space) s).2
      = Demo.activateDemo (e_Demo.ofInt (Int.tmod (s.g_demo.toInt + 1) 4))
          { s with g_demo := e_Demo.ofInt (Int.tmod (s.g_demo.toInt + 1) 4) } := by
  simp [Demo.handle, Demo.keyDown]

theorem space_demo {C : Type} (M : TimeFMethods C) (s : Demo C) :
    (Demo.handle M (Event.KEYDOWN Demo.KEY_Space) s).2.g_demo
      = e_Demo.ofInt (Int.tmod (s.g_demo.toInt + 1) 4) := by
  rw [space_fields, (activateDemo_fields _ _).1]

/-- C14. A press of the space key makes the active demo
`(g_demo + 1) % 4`: polar becomes cube, cube paraboloid, paraboloid sphere and
sphere polar; after the press a himmel has a non-zero node mask exactly when it
is the active one (its mask is 1, the other three are 0); the clock and the field
of view are untouched; and four presses give the initially active demo again. -/
theorem C14_space_cycles_demo {C : Type} (M : TimeFMethods C) (s : Demo C) :
    (Demo.handle M (Event.KEYDOWN Demo.KEY_Space) s).2.g_demo.toInt
      = (s.g_demo.toInt + 1) % 4
    ∧ ((Demo.handle M (Event.KEYDOWN Demo.KEY_Space)
          { s with g_demo := e_Demo.D_PolarMappedHimmel }).2.g_demo
        = e_Demo.D_CubeMappedHimmel
      ∧ (Demo.handle M (Event.KEYDOWN Demo.KEY_Space)
          { s with g_demo := e_Demo.D_CubeMappedHimmel }).2.g_demo
        = e_Demo.D_ParaboloidMappedHimmel
      ∧ (Demo.handle M (Event.KEYDOWN Demo.KEY_Space)
          { s with g_demo := e_Demo.D_ParaboloidMappedHimmel }).2.g_demo
        = e_Demo.D_SphereMappedHimmel
      ∧ (Demo.handle M (Event.KEYDOWN Demo.KEY_Space)
          { s with g_demo := e_Demo.D_SphereMappedHimmel }).2.g_demo
        = e_Demo.D_PolarMappedHimmel)
    ∧ (∀ d : e_Demo,
        (Demo.handle M (Event.KEYDOWN Demo.KEY_Space) s).2.nodeMask d ≠ 0
          ↔ d = (Demo.handle M (Event.KEYDOWN Demo.KEY_Space) s).2.g_demo)
    ∧ (∀ d : e_Demo,
        (Demo.handle M (Event.KEYDOWN Demo.KEY_Space) s).2.nodeMask d
          = if d = (Demo.handle M (Event.KEYDOWN Demo.KEY_Space) s).2.g_demo then 1 else 0)
    ∧ ((Demo.handle M (Event.KEYDOWN Demo.KEY_Space) s).2.g_timef = s.g_timef
      ∧ (Demo.handle M (Event.KEYDOWN Demo.KEY_Space) s).2.g_fov = s.g_fov)
    ∧ (Demo.handleAll M
          [Event.KEYDOWN Demo.KEY_Space, Event.KEYDOWN Demo.KEY_Space,
            Event.KEYDOWN Demo.KEY_Space, Event.KEYDOWN Demo.KEY_Space] s).g_demo
        = s.g_demo := by
  have hmask : ∀ d : e_Demo,
      (Demo.handle M (Event.KEYDOWN Demo.KEY_Space) s).2.nodeMask d
        = if d = (Demo.handle M (Event.KEYDOWN Demo.KEY_Space) s).2.g_demo then 1 else 0 := by
    intro d
    rw [space_demo, space_fields]
    exact (activateDemo_fields _ _).2.2.2.2 d
  have hnext : ∀ g : e_Demo, e_Demo.ofInt (Int.tmod (g.toInt + 1) 4)
      = match g with
        | e_Demo.D_PolarMappedHimmel => e_Demo.D_CubeMappedHimmel
        | e_Demo.D_CubeMappedHimmel => e_Demo.D_ParaboloidMappedHimmel
        | e_Demo.D_ParaboloidMappedHimmel => e_Demo.D_SphereMappedHimmel
        | e_Demo.D_SphereMappedHimmel => e_Demo.D_PolarMappedHimmel := by
    intro g
    cases g <;> decide
  refine ⟨?_, ⟨?_, ?_, ?_, ?_⟩, ?_, hmask, ⟨?_, ?_⟩, ?_⟩
  · rw [space_demo, hnext]
    cases s.g_demo <;> decide
  · rw [space_demo, hnext]
  · rw [space_demo, hnext]
  · rw [space_demo, hnext]
  · rw [space_demo, hnext]
  · intro d
    rw [hmask d]
    by_cases hd : d = (Demo.handle M (Event.KEYDOWN Demo.KEY_Space) s).2.g_demo
    · simp [hd]
    · simp [hd]
  · rw [space_fields]; exact (activateDemo_fields _ _).2.1
  · rw [space_fields]; exact (activateDemo_fields _ _).2.2.1
  · simp only [Demo.handleAll, List.foldl_cons, List.foldl_nil]
    rw [space_demo, space_demo, space_demo, space_demo, hnext, hnext, hnext, hnext]
    cases s.g_demo <;> rfl

/-! ## The textured demo: command line -/

theorem filter_erase_self (str : String) (l : List String) :
    (l.erase str).filter (fun a => a ≠ str) = l.filter (fun a => a ≠ str) := by
  induction l with
  | nil => rfl
  | cons a l ih =>
    by_cases h : a = str
    · subst h
      simp
    · have h1 : (a == str) = false := by simpa using h
      have hp : decide (a ≠ str) = true := by simpa using h
      simp only [List.erase_cons, h1, Bool.false_eq_true, if_false, List.filter_cons, hp,
        if_true, ih]

theorem whileRead_result (str : String) (demo : e_Demo) (n : Nat) :
    ∀ (g : e_Demo) (l : List String), l.length = n →
      Demo.whileRead str demo (g, l)
        = (if str ∈ l then demo else g, l.filter (fun a => a ≠ str)) := by
  induction n using Nat.strong_induction_on with
  | _ n ih =>
    intro g l hl
    rw [Demo.whileRead]
    by_cases hm : str ∈ l
    · have hlen : (l.erase str).length < n := by
        rw [List.length_erase_of_mem hm, ← hl]
        exact Nat.pred_lt (Nat.pos_iff_ne_zero.mp (List.length_pos_of_mem hm))
      have h1 := ih (l.erase str).length hlen demo (l.erase str) rfl
      simp only [Demo.argumentsRead, hm, if_true]
      rw [h1, filter_erase_self]
      simp
    · have hf : l.filter (fun a => a ≠ str) = l := by
        rw [List.filter_eq_self]
        intro a ha
        have : a ≠ str := fun h => hm (h ▸ ha)
        simpa using this
      simp only [Demo.argumentsRead, hm, if_false, Bool.false_eq_true, hf]

theorem readFlags_result (l : List String) (h1 : "-h" ∉ l) (h2 : "--help" ∉ l) :
    (Demo.readFlags l).map Prod.fst
      = some (if "--sphere" ∈ l then e_Demo.D_SphereMappedHimmel
          else if "--paraboloid" ∈ l then e_Demo.D_ParaboloidMappedHimmel
          else if "--cube" ∈ l then e_Demo.D_CubeMappedHimmel
          else e_Demo.D_PolarMappedHimmel) := by
  simp only [Demo.readFlags, Demo.argumentsRead, h1, h2, if_false, Bool.false_eq_true,
    Option.map_some', whileRead_result _ _ _ _ _ rfl]
  simp only [List.mem_filter, decide_eq_true_eq]
  by_cases hs : "--sphere" ∈ l <;> by_cases hp : "--paraboloid" ∈ l <;>
    by_cases hc : "--cube" ∈ l <;> by_cases ho : "--polar" ∈ l <;> simp [hs, hp, hc, ho]

theorem main_demo {C : Type} (timef : C) (l : List String) :
    (Demo.main timef l).map (fun s => s.g_demo) = (Demo.readFlags l).map Prod.fst
    ∧ (∀ s, Demo.main timef l = some s →
        ∀ d : e_Demo, s.nodeMask d = if d = s.g_demo then 1 else 0) := by
  unfold Demo.main
  cases hr : Demo.readFlags l with
  | none => simp
  | some p =>
    obtain ⟨demo, rest⟩ := p
    refine ⟨?_, ?_⟩
    · simp [(activateDemo_fields _ _).1]
    · intro s hs d
      simp only [Option.some.injEq] at hs
      subst hs
      rw [(activateDemo_fields _ _).1]
      exact (activateDemo_fields _ _).2.2.2.2 d

/-- C15 as stated fails. With the arguments `--cube -h` the flag `--cube` is
given, yet `main` prints the usage and returns at the help flag before any himmel
is created or activated: the demo does not start, with the cube mapped himmel or
any other. The same holds for `--sphere --help`. -/
theorem C15_counterexample :
    "--cube" ∈ ["--cube", "-h"]
    ∧ Demo.main g_timef ["--cube", "-h"] = none
    ∧ (Demo.main g_timef ["--cube", "-h"]).map (fun s => s.g_demo)
        ≠ some e_Demo.D_CubeMappedHimmel
    ∧ "--sphere" ∈ ["--sphere", "--help"]
    ∧ Demo.main g_timef ["--sphere", "--help"] = none := by
  have h1 : Demo.main g_timef ["--cube", "-h"] = none := by
    have hr : Demo.readFlags ["--cube", "-h"] = none := by
      simp [Demo.readFlags, Demo.argumentsRead]
    simp [Demo.main, hr]
  have h2 : Demo.main g_timef ["--sphere", "--help"] = none := by
    have hr : Demo.readFlags ["--sphere", "--help"] = none := by
      simp [Demo.readFlags, Demo.argumentsRead]
    simp [Demo.main, hr]
  refine ⟨by decide, h1, ?_, by decide, h2⟩
  rw [h1]
  simp

/-- C15, amended. With `-h` or `--help` among the arguments `main` returns before
any demo starts. Otherwise, for each of the flags `--polar`, `--cube`,
`--paraboloid` and `--sphere`: when it is the one of the four that is given, the
demo starts with the himmel it names, and with none of the four the demo starts
with the polar mapped himmel; the himmel started is the single active one, its
node mask is 1 and the other three are 0. (When several of the four are given,
the one last in the order polar, cube, paraboloid, sphere is started.) -/
theorem C15_flags_amended {C : Type} (timef : C) (l : List String) :
    ("-h" ∈ l ∨ "--help" ∈ l → Demo.main timef l = none)
    ∧ ("-h" ∉ l → "--help" ∉ l →
        (Demo.main timef l).map (fun s => s.g_demo)
          = some (if "--sphere" ∈ l then e_Demo.D_SphereMappedHimmel
              else if "--paraboloid" ∈ l then e_Demo.D_ParaboloidMappedHimmel
              else if "--cube" ∈ l then e_Demo.D_CubeMappedHimmel
              else e_Demo.D_PolarMappedHimmel))
    ∧ ("-h" ∉ l → "--help" ∉ l →
        ("--polar" ∈ l → "--cube" ∉ l → "--paraboloid" ∉ l → "--sphere" ∉ l →
          (Demo.main timef l).map (fun s => s.g_demo) = some e_Demo.D_PolarMappedHimmel)
        ∧ ("--cube" ∈ l → "--polar" ∉ l → "--paraboloid" ∉ l → "--sphere" ∉ l →
          (Demo.main timef l).map (fun s => s.g_demo) = some e_Demo.D_CubeMappedHimmel)
        ∧ ("--paraboloid" ∈ l → "--polar" ∉ l → "--cube" ∉ l → "--sphere" ∉ l →
          (Demo.main timef l).map (fun s => s.g_demo)
            = some e_Demo.D_ParaboloidMappedHimmel)
        ∧ ("--sphere" ∈ l → "--polar" ∉ l → "--cube" ∉ l → "--paraboloid" ∉ l →
          (Demo.main timef l).map (fun s => s.g_demo) = some e_Demo.D_SphereMappedHimmel)
        ∧ ("--polar" ∉ l → "--cube" ∉ l → "--paraboloid" ∉ l → "--sphere" ∉ l →
          (Demo.main timef l).map (fun s => s.g_demo) = some e_Demo.D_PolarMappedHimmel))
    ∧ (∀ s, Demo.main timef l = some s →
        ∀ d : e_Demo, (s.nodeMask d ≠ 0 ↔ d = s.g_demo)
          ∧ s.nodeMask d = if d = s.g_demo then 1 else 0) := by
  have hprio : "-h" ∉ l → "--help" ∉ l →
      (Demo.main timef l).map (fun s => s.g_demo)
        = some (if "--sphere" ∈ l then e_Demo.D_SphereMappedHimmel
            else if "--paraboloid" ∈ l then e_Demo.D_ParaboloidMappedHimmel
            else if "--cube" ∈ l then e_Demo.D_CubeMappedHimmel
            else e_Demo.D_PolarMappedHimmel) := by
    intro h1 h2
    rw [(main_demo timef l).1, readFlags_result l h1 h2]
  refine ⟨?_, hprio, ?_, ?_⟩
  · intro hh
    have hr : Demo.readFlags l = none := by
      by_cases h1 : "-h" ∈ l
      · simp [Demo.readFlags, Demo.argumentsRead, h1]
      · have h2 : "--help" ∈ l := hh.resolve_left h1
        simp [Demo.readFlags, Demo.argumentsRead, h1, h2]
    simp [Demo.main, hr]
  · intro h1 h2
    have hp := hprio h1 h2
    refine ⟨?_, ?_, ?_, ?_, ?_⟩
    · intro _ hc hpa hs
      rw [hp, if_neg hs, if_neg hpa, if_neg hc]
    · intro hc _ hpa hs
      rw [hp, if_neg hs, if_neg hpa, if_pos hc]
    · intro hpa _ _ hs
      rw [hp, if_neg hs, if_pos hpa]
    · intro hs _ _ _
      rw [hp, if_pos hs]
    · intro _ hc hpa hs
      rw [hp, if_neg hs, if_neg hpa, if_neg hc]
  · intro s hs d
    have hm := (main_demo timef l).2 s hs d
    refine ⟨?_, hm⟩
    rw [hm]
    by_cases hd : d = s.g_demo
    · simp [hd]
    · simp [hd]

/-- C15, amended, at concrete command lines without a help flag: each of the four
flags given alone starts the himmel it names, and no flag at all starts the polar
mapped himmel. -/
theorem C15_flags_witness :
    (Demo.main g_timef ["--polar"]).map (fun s => s.g_demo)
        = some e_Demo.D_PolarMappedHimmel
    ∧ (Demo.main g_timef ["--cube"]).map (fun s => s.g_demo)
        = some e_Demo.D_CubeMappedHimmel
    ∧ (Demo.main g_timef ["--paraboloid"]).map (fun s => s.g_demo)
        = some e_Demo.D_ParaboloidMappedHimmel
    ∧ (Demo.main g_timef ["--sphere"]).map (fun s => s.g_demo)
        = some e_Demo.D_SphereMappedHimmel
    ∧ (Demo.main g_timef []).map (fun s => s.g_demo)
        = some e_Demo.D_PolarMappedHimmel :=
  ⟨(C15_flags_amended g_timef ["--polar"]).2.2.1 (by decide) (by decide) |>.1
      (by decide) (by decide) (by decide) (by decide),
    (C15_flags_amended g_timef ["--cube"]).2.2.1 (by decide) (by decide) |>.2.1
      (by decide) (by decide) (by decide) (by decide),
    (C15_flags_amended g_timef ["--paraboloid"]).2.2.1 (by decide) (by decide) |>.2.2.1
      (by decide) (by decide) (by decide) (by decide),
    (C15_flags_amended g_timef ["--sphere"]).2.2.1 (by decide) (by decide) |>.2.2.2.1
      (by decide) (by decide) (by decide) (by decide),
    (C15_flags_amended g_timef []).2.2.1 (by decide) (by decide) |>.2.2.2.2
      (by decide) (by decide) (by decide) (by decide)⟩

end osgHimmel
